import Mathlib

/-
Verification development for the mpegts-io MPEG-TS / BDAV parsing library.

The definitions below are a shallow embedding of the Rust sources:
  * src/slice_reader.rs   - bounded byte-slice cursor (`SliceReader`)
  * src/lib.rs            - base transport-stream parser (`MpegTsParser`)
  * src/payload_unit.rs   - PID-keyed payload-unit reassembly
  * src/psi.rs            - PSI section decoding (PAT / PMT / raw tables)
  * src/pes.rs            - PES unit decoding
  * src/bdav/mod.rs       - BDAV application storage
  * src/bdav/pg.rs        - PG / IG / Text graphics segment decoding
  * src/bdav/mobj.rs      - MObj command decoding

Modelling conventions:
  * Bytes are `Nat` values (< 256 in every concrete input considered).
  * Rust `&mut` state threading becomes explicit state passing.
  * Rust `Result` becomes `Except MtsError`.
  * A Rust panic (overflowing `usize` subtraction followed by an
    out-of-range slice index, or an `assert!`/`panic!`) is modelled by an
    outer `Option` being `none`.  Wrapping arithmetic of release builds is
    made explicit where the wrapped value flows onward.
  * `HashMap` / `HashSet` become Lean functions into `Option` / `Bool`;
    the code only inserts, removes and looks up, so ordering is irrelevant.
-/

/-- Errors of the MObj command decoder (src/bdav/mobj.rs, `MObjCmdErrorDetails`). -/
inductive MObjCmdErrorDetails where
  | unknownMObjGroup (v : Nat)
  | unknownBranchSubGroup (v : Nat)
  | unknownGotoInstruction (v : Nat)
  | unknownJumpInstruction (v : Nat)
  | unknownPlayInstruction (v : Nat)
  | unknownCmpInstruction (v : Nat)
  | unknownSetSubGroup (v : Nat)
  | unknownSetInstruction (v : Nat)
  | unknownSetSystemInstruction (v : Nat)
deriving DecidableEq, Repr

/-- BDAV application errors (src/bdav/mod.rs, `BdavErrorDetails`). -/
inductive BdavErrorDetails where
  | unknownPgSegmentType (v : Nat)
  | unknownFrameRate (v : Nat)
  | unknownPgCompositionUnitState (v : Nat)
  | badMObjCommand (e : MObjCmdErrorDetails)
  | nonStartedPgsObject
  | nonStartedPgsIgComposition
  | unknownTgTextFlow (v : Nat)
  | unknownTgHAlign (v : Nat)
  | unknownTgVAlign (v : Nat)
  | unknownTgOutlineThickness (v : Nat)
deriving DecidableEq, Repr

/-- Parser errors (src/lib.rs, `ErrorDetails`), instantiated with the BDAV
application error extension (`AppError`). -/
inductive MtsErrorDetails where
  | packetOverrun (n : Nat)
  | lostSync
  | badAdaptationHeader
  | badPsiHeader
  | badPesHeader
  | psiCrcMismatch
  | appError (e : BdavErrorDetails)
deriving DecidableEq, Repr

/-- Error value carrying the byte offset at which it was produced
(src/lib.rs, `Error`). -/
structure MtsError where
  location : Nat
  details : MtsErrorDetails
deriving DecidableEq, Repr

/-- Bounded cursor over a byte slice (src/slice_reader.rs, `SliceReader`).
The borrowed slice is the list of not-yet-consumed bytes and `location` is
the absolute offset of its first byte. -/
structure SliceReader where
  slice : List Nat
  location : Nat
deriving DecidableEq, Repr

/-- `SliceReader::remaining_len`. -/
def SliceReader.remaining_len (r : SliceReader) : Nat :=
  r.slice.length

/-- `SliceReader::make_error`. -/
def SliceReader.make_error (r : SliceReader) (d : MtsErrorDetails) : MtsError :=
  ⟨r.location, d⟩

/-- `SliceReader::skip`. -/
def SliceReader.skip (r : SliceReader) (length : Nat) : Except MtsError SliceReader :=
  if length > r.slice.length then
    .error (r.make_error (.packetOverrun length))
  else
    .ok ⟨r.slice.drop length, r.location + length⟩

/-- `SliceReader::read`: extracts a fixed-length sub-slice and advances. -/
def SliceReader.read (r : SliceReader) (length : Nat) :
    Except MtsError (List Nat × SliceReader) :=
  if length > r.slice.length then
    .error (r.make_error (.packetOverrun length))
  else
    .ok (r.slice.take length, ⟨r.slice.drop length, r.location + length⟩)

/-- `SliceReader::read_to_end`. -/
def SliceReader.read_to_end (r : SliceReader) :
    Except MtsError (List Nat × SliceReader) :=
  r.read r.slice.length

/-- `SliceReader::new_sub_reader`: the sub-reader inherits the parent's
current location as its base, the parent advances past the sub-slice. -/
def SliceReader.new_sub_reader (r : SliceReader) (length : Nat) :
    Except MtsError (SliceReader × SliceReader) :=
  match r.read length with
  | .error e => .error e
  | .ok (bytes, r') => .ok (⟨bytes, r.location⟩, r')

/-- `SliceReader::read_array_ref::<N>` (the array conversion is a cast in
the source; the bounds check is `read`'s). -/
def SliceReader.read_array_ref (r : SliceReader) (n : Nat) :
    Except MtsError (List Nat × SliceReader) :=
  r.read n

/-- `SliceReader::read_u8`. -/
def SliceReader.read_u8 (r : SliceReader) : Except MtsError (Nat × SliceReader) :=
  match r.read_array_ref 1 with
  | .error e => .error e
  | .ok (bytes, r') => .ok (bytes.headI, r')

/-- Big-endian byte-list value (`u16::from_be_bytes` and friends). -/
def beValue (bytes : List Nat) : Nat :=
  bytes.foldl (fun acc b => 256 * acc + b) 0

/-- `SliceReader::read_be_u16`. -/
def SliceReader.read_be_u16 (r : SliceReader) : Except MtsError (Nat × SliceReader) :=
  match r.read_array_ref 2 with
  | .error e => .error e
  | .ok (bytes, r') => .ok (beValue bytes, r')

/-- `SliceReader::read_be_u24` (three bytes zero-extended). -/
def SliceReader.read_be_u24 (r : SliceReader) : Except MtsError (Nat × SliceReader) :=
  match r.read_array_ref 3 with
  | .error e => .error e
  | .ok (bytes, r') => .ok (beValue bytes, r')

/-- `SliceReader::read_be_u32`. -/
def SliceReader.read_be_u32 (r : SliceReader) : Except MtsError (Nat × SliceReader) :=
  match r.read_array_ref 4 with
  | .error e => .error e
  | .ok (bytes, r') => .ok (beValue bytes, r')

/-- `SliceReader::read_be_u33` (five bytes, top byte masked with 0x01). -/
def SliceReader.read_be_u33 (r : SliceReader) : Except MtsError (Nat × SliceReader) :=
  match r.read_array_ref 5 with
  | .error e => .error e
  | .ok (bytes, r') => .ok (beValue ((bytes.headI &&& 0x1) :: bytes.tail), r')

/-- `SliceReader::peek`: like `read` but does not advance. -/
def SliceReader.peek (r : SliceReader) (length : Nat) :
    Except MtsError (List Nat) :=
  if length > r.slice.length then
    .error (r.make_error (.packetOverrun length))
  else
    .ok (r.slice.take length)

/-- `SliceReader::peek_array_ref::<N>`. -/
def SliceReader.peek_array_ref (r : SliceReader) (n : Nat) :
    Except MtsError (List Nat) :=
  r.peek n


/-- Length bookkeeping for a successful `read`. -/
theorem SliceReader.read_ok_len {r : SliceReader} {n : Nat} {bytes : List Nat}
    {r' : SliceReader} (h : r.read n = .ok (bytes, r')) :
    n ≤ r.slice.length ∧ r'.slice.length = r.slice.length - n ∧
      bytes.length = n := by
  unfold SliceReader.read at h
  by_cases hn : n > r.slice.length
  · simp [hn] at h
  · simp [hn] at h
    obtain ⟨h1, h2⟩ := h
    refine ⟨by omega, ?_, ?_⟩
    · rw [← h2]
      simp [List.length_drop]
    · rw [← h1]
      simp [List.length_take]
      omega

/-- Length bookkeeping for a successful `read_u8`. -/
theorem SliceReader.read_u8_ok_len {r : SliceReader} {v : Nat}
    {r' : SliceReader} (h : r.read_u8 = .ok (v, r')) :
    1 ≤ r.slice.length ∧ r'.slice.length = r.slice.length - 1 := by
  unfold SliceReader.read_u8 SliceReader.read_array_ref at h
  split at h
  · simp at h
  · rename_i bytes r2 hread
    simp at h
    obtain ⟨-, h2⟩ := h
    obtain ⟨hle, hlen, -⟩ := SliceReader.read_ok_len hread
    subst h2
    exact ⟨hle, hlen⟩

/-- Length bookkeeping for a successful `new_sub_reader`: the parent
advances by the sub-view length. -/
theorem SliceReader.new_sub_reader_ok_len {r : SliceReader} {n : Nat}
    {sub r' : SliceReader} (h : r.new_sub_reader n = .ok (sub, r')) :
    n ≤ r.slice.length ∧ r'.slice.length = r.slice.length - n ∧
      sub.slice.length = n := by
  unfold SliceReader.new_sub_reader at h
  split at h
  · simp at h
  · rename_i bytes r2 hread
    simp at h
    obtain ⟨h1, h2⟩ := h
    obtain ⟨hle, hlen, hblen⟩ := SliceReader.read_ok_len hread
    refine ⟨hle, ?_, ?_⟩
    · rw [← h2]; exact hlen
    · rw [← h1]
      simpa using hblen

/-- Byte test helper: the Rust sources test flag bits with `x & mask != 0`. -/
def bitFlag (x mask : Nat) : Bool :=
  x &&& mask ≠ 0

/-- MObj top-level instruction group (src/bdav/mobj.rs, `MObjGroup`). -/
inductive MObjGroup where
  | branch
  | cmp
  | set
deriving DecidableEq, Repr

/-- `FromPrimitive` for `MObjGroup` (discriminants 0, 1, 2). -/
def MObjGroup.fromPrimitive : Nat → Option MObjGroup
  | 0 => some .branch
  | 1 => some .cmp
  | 2 => some .set
  | _ => none

/-- Branch instruction sub-group (src/bdav/mobj.rs, `BranchSubGroup`). -/
inductive BranchSubGroup where
  | goto
  | jump
  | play
deriving DecidableEq, Repr

/-- `FromPrimitive` for `BranchSubGroup`. -/
def BranchSubGroup.fromPrimitive : Nat → Option BranchSubGroup
  | 0 => some .goto
  | 1 => some .jump
  | 2 => some .play
  | _ => none

/-- Goto instructions (src/bdav/mobj.rs, `GotoInstruction`). -/
inductive GotoInstruction where
  | nop
  | goto
  | break_
deriving DecidableEq, Repr

/-- `FromPrimitive` for `GotoInstruction`. -/
def GotoInstruction.fromPrimitive : Nat → Option GotoInstruction
  | 0 => some .nop
  | 1 => some .goto
  | 2 => some .break_
  | _ => none

/-- Jump instructions (src/bdav/mobj.rs, `JumpInstruction`). -/
inductive JumpInstruction where
  | jumpObject
  | jumpTitle
  | callObject
  | callTitle
  | resume
deriving DecidableEq, Repr

/-- `FromPrimitive` for `JumpInstruction`. -/
def JumpInstruction.fromPrimitive : Nat → Option JumpInstruction
  | 0 => some .jumpObject
  | 1 => some .jumpTitle
  | 2 => some .callObject
  | 3 => some .callTitle
  | 4 => some .resume
  | _ => none

/-- Play instructions (src/bdav/mobj.rs, `PlayInstruction`). -/
inductive PlayInstruction where
  | playPlaylist
  | playPlaylistItem
  | playPlaylistMark
  | terminatePlaylist
  | linkItem
  | linkMark
deriving DecidableEq, Repr

/-- `FromPrimitive` for `PlayInstruction`. -/
def PlayInstruction.fromPrimitive : Nat → Option PlayInstruction
  | 0 => some .playPlaylist
  | 1 => some .playPlaylistItem
  | 2 => some .playPlaylistMark
  | 3 => some .terminatePlaylist
  | 4 => some .linkItem
  | 5 => some .linkMark
  | _ => none

/-- Cmp instructions (src/bdav/mobj.rs, `CmpInstruction`, discriminants 1..=7). -/
inductive CmpInstruction where
  | bc
  | eq
  | ne
  | ge
  | gt
  | le
  | lt
deriving DecidableEq, Repr

/-- `FromPrimitive` for `CmpInstruction`. -/
def CmpInstruction.fromPrimitive : Nat → Option CmpInstruction
  | 1 => some .bc
  | 2 => some .eq
  | 3 => some .ne
  | 4 => some .ge
  | 5 => some .gt
  | 6 => some .le
  | 7 => some .lt
  | _ => none

/-- Set instruction sub-group (src/bdav/mobj.rs, `SetSubGroup`). -/
inductive SetSubGroup where
  | set
  | setSystem
deriving DecidableEq, Repr

/-- `FromPrimitive` for `SetSubGroup`. -/
def SetSubGroup.fromPrimitive : Nat → Option SetSubGroup
  | 0 => some .set
  | 1 => some .setSystem
  | _ => none

/-- Set instructions (src/bdav/mobj.rs, `SetInstruction`, discriminants 1..=15). -/
inductive SetInstruction where
  | move
  | swap
  | add
  | sub
  | mul
  | div
  | mod
  | rnd
  | and
  | or
  | xor
  | bitset
  | bitclr
  | shl
  | shr
deriving DecidableEq, Repr

/-- `FromPrimitive` for `SetInstruction`. -/
def SetInstruction.fromPrimitive : Nat → Option SetInstruction
  | 1 => some .move
  | 2 => some .swap
  | 3 => some .add
  | 4 => some .sub
  | 5 => some .mul
  | 6 => some .div
  | 7 => some .mod
  | 8 => some .rnd
  | 9 => some .and
  | 10 => some .or
  | 11 => some .xor
  | 12 => some .bitset
  | 13 => some .bitclr
  | 14 => some .shl
  | 15 => some .shr
  | _ => none

/-- SetSystem instructions (src/bdav/mobj.rs, `SetSystemInstruction`,
discriminants 1..=11 and 0x10). -/
inductive SetSystemInstruction where
  | setStream
  | setNvTimer
  | setButtonPage
  | enableButton
  | disableButton
  | setSecStream
  | popupOff
  | stillOn
  | stillOff
  | setOutputMode
  | setStreamSs
  | bdPlusMsg
deriving DecidableEq, Repr

/-- `FromPrimitive` for `SetSystemInstruction`. -/
def SetSystemInstruction.fromPrimitive : Nat → Option SetSystemInstruction
  | 1 => some .setStream
  | 2 => some .setNvTimer
  | 3 => some .setButtonPage
  | 4 => some .enableButton
  | 5 => some .disableButton
  | 6 => some .setSecStream
  | 7 => some .popupOff
  | 8 => some .stillOn
  | 9 => some .stillOff
  | 10 => some .setOutputMode
  | 11 => some .setStreamSs
  | 16 => some .bdPlusMsg
  | _ => none

/-- MObj instruction word fields (src/bdav/mobj.rs, `MObjInstruction`).
MSB-first bit layout over 4 bytes: op_cnt(3) grp(2) sub_grp(3) | imm_op1
imm_op2 skip(2) branch_opt(4) | skip(4) cmp_opt(4) | skip(3) set_opt(5). -/
structure MObjInstruction where
  op_cnt : Nat
  grp : Nat
  sub_grp : Nat
  imm_op1 : Bool
  imm_op2 : Bool
  branch_opt : Nat
  cmp_opt : Nat
  set_opt : Nat
deriving DecidableEq, Repr

/-- `MObjInstruction::from_bytes` for the 4-byte big-endian bitfield. -/
def MObjInstruction.fromBytes (b0 b1 b2 b3 : Nat) : MObjInstruction :=
  { op_cnt := b0 >>> 5
    grp := (b0 >>> 3) &&& 0x3
    sub_grp := b0 &&& 0x7
    imm_op1 := bitFlag b1 0x80
    imm_op2 := bitFlag b1 0x40
    branch_opt := b1 &&& 0xF
    cmp_opt := b2 &&& 0xF
    set_opt := b3 &&& 0x1F }

/-- A command in the MObj VM (src/bdav/mobj.rs, `MObjCmd`). -/
structure MObjCmd where
  inst : MObjInstruction
  dst : Nat
  src : Nat
deriving DecidableEq, Repr

/-- `MObjCmd::validate`: walks group, sub-group and option through the
`FromPrimitive` maps exactly as `MObjCmd::visit` with the `CmdValidate`
visitor does, reporting the first unknown value. -/
def MObjCmd.validate (c : MObjCmd) : Except MObjCmdErrorDetails Unit :=
  match MObjGroup.fromPrimitive c.inst.grp with
  | none => .error (.unknownMObjGroup c.inst.grp)
  | some .branch =>
    match BranchSubGroup.fromPrimitive c.inst.sub_grp with
    | none => .error (.unknownBranchSubGroup c.inst.sub_grp)
    | some .goto =>
      match GotoInstruction.fromPrimitive c.inst.branch_opt with
      | none => .error (.unknownGotoInstruction c.inst.branch_opt)
      | some _ => .ok ()
    | some .jump =>
      match JumpInstruction.fromPrimitive c.inst.branch_opt with
      | none => .error (.unknownJumpInstruction c.inst.branch_opt)
      | some _ => .ok ()
    | some .play =>
      match PlayInstruction.fromPrimitive c.inst.branch_opt with
      | none => .error (.unknownPlayInstruction c.inst.branch_opt)
      | some _ => .ok ()
  | some .cmp =>
    match CmpInstruction.fromPrimitive c.inst.cmp_opt with
    | none => .error (.unknownCmpInstruction c.inst.cmp_opt)
    | some _ => .ok ()
  | some .set =>
    match SetSubGroup.fromPrimitive c.inst.sub_grp with
    | none => .error (.unknownSetSubGroup c.inst.sub_grp)
    | some .set =>
      match SetInstruction.fromPrimitive c.inst.set_opt with
      | none => .error (.unknownSetInstruction c.inst.set_opt)
      | some _ => .ok ()
    | some .setSystem =>
      match SetSystemInstruction.fromPrimitive c.inst.set_opt with
      | none => .error (.unknownSetSystemInstruction c.inst.set_opt)
      | some _ => .ok ()

/-- `MObjCmd::parse`: 12 bytes; the instruction word, dst and src, then
validation (errors become `AppError(BadMObjCommand)` at the reader's
position after the reads). -/
def MObjCmd.parse (r : SliceReader) : Except MtsError (MObjCmd × SliceReader) :=
  match r.read_array_ref 4 with
  | .error e => .error e
  | .ok (ib, r1) =>
    match r1.read_be_u32 with
    | .error e => .error e
    | .ok (dst, r2) =>
      match r2.read_be_u32 with
      | .error e => .error e
      | .ok (src, r3) =>
        let new_cmd : MObjCmd :=
          ⟨MObjInstruction.fromBytes (ib.headI) (ib.tail.headI)
            (ib.tail.tail.headI) (ib.tail.tail.tail.headI), dst, src⟩
        match new_cmd.validate with
        | .error e => .error (r3.make_error (.appError (.badMObjCommand e)))
        | .ok _ => .ok (new_cmd, r3)

/-- MObj operand (src/bdav/mobj.rs, `MObjOperand`). -/
inductive MObjOperand where
  | gpr (v : Nat)
  | psr (v : Nat)
  | imm (v : Nat)
deriving DecidableEq, Repr

/-- `MObjCmd::make_operand` (src/bdav/mobj.rs lines 492-500). -/
def MObjCmd.make_operand (v : Nat) (is_imm : Bool) : MObjOperand :=
  if is_imm then
    .imm v
  else if v &&& 0x80000000 = 0 then
    .gpr (v &&& 0xfff)
  else
    .psr (v &&& 0x7f)

/-- A YCbCrA palette entry (src/bdav/pg.rs, `PgsPaletteEntry`). -/
structure PgsPaletteEntry where
  y : Nat
  cr : Nat
  cb : Nat
  t : Nat
deriving DecidableEq, Repr

/-- Default (zero) palette entry. -/
def PgsPaletteEntry.default : PgsPaletteEntry :=
  ⟨0, 0, 0, 0⟩

/-- A palette object (src/bdav/pg.rs, `PgsPalette`); the 256-entry boxed
array is modelled as a total function from index to entry. -/
structure PgsPalette where
  id : Nat
  version : Nat
  entries : Nat → PgsPaletteEntry

/-- Loop body of `PgsPalette::parse`: while bytes remain, read an index
byte and four component bytes and update that entry.  A remainder of 1-4
bytes fails with `PacketOverrun(1)` at the position the short `read_u8`
was attempted, exactly as the chain of `read_u8()?` calls does. -/
def pgsPaletteLoop (entries : Nat → PgsPaletteEntry) (r : SliceReader) :
    Except MtsError (Nat → PgsPaletteEntry) :=
  match h : r.slice with
  | [] => .ok entries
  | i :: y :: cr :: cb :: t :: rest =>
      pgsPaletteLoop (fun q => if q = i then ⟨y, cr, cb, t⟩ else entries q)
        ⟨rest, r.location + 5⟩
  | _ => .error ⟨r.location + r.slice.length, .packetOverrun 1⟩
termination_by r.slice.length
decreasing_by simp [h]; omega

/-- `PgsPalette::parse` (the storage argument is threaded but unused, as in
the source). -/
def PgsPalette.parse (r : SliceReader) (storage : α) :
    (Except MtsError (PgsPalette × SliceReader)) × α :=
  (match r.read_u8 with
  | .error e => .error e
  | .ok (id, r1) =>
    match r1.read_u8 with
    | .error e => .error e
    | .ok (version, r2) =>
      match pgsPaletteLoop (fun _ => PgsPaletteEntry.default) r2 with
      | .error e => .error e
      | .ok entries =>
        .ok (⟨id, version, entries⟩, ⟨[], r2.location + r2.slice.length⟩), storage)

/-- Final parsed data of a PG object (src/bdav/pg.rs, `PgsObjectData`). -/
structure PgsObjectData where
  width : Nat
  height : Nat
  data : List Nat
deriving DecidableEq, Repr

/-- `PgsObjectData::parse`: width, height, then all remaining bytes. -/
def PgsObjectData.parse (r : SliceReader) :
    Except MtsError (PgsObjectData × SliceReader) :=
  match r.read_be_u16 with
  | .error e => .error e
  | .ok (width, r1) =>
    match r1.read_be_u16 with
    | .error e => .error e
    | .ok (height, r2) =>
      match r2.read_to_end with
      | .error e => .error e
      | .ok (data, r3) => .ok (⟨width, height, data⟩, r3)

/-- Fragmentation flags (src/bdav/pg.rs, `PgSequenceDescriptor`). -/
structure PgSequenceDescriptor where
  first_in_seq : Bool
  last_in_seq : Bool
deriving DecidableEq, Repr

/-- `PgSequenceDescriptor::parse`: top two bits of one byte. -/
def PgSequenceDescriptor.parse (r : SliceReader) :
    Except MtsError (PgSequenceDescriptor × SliceReader) :=
  match r.read_u8 with
  | .error e => .error e
  | .ok (bits, r1) => .ok (⟨bitFlag bits 0x80, bitFlag bits 0x40⟩, r1)

/-- A pending second-level reassembly buffer: a Rust `Vec` created with
`Vec::with_capacity(length)`, whose `capacity()` is used as the truncation
budget.  The model takes the capacity to be exactly the requested length. -/
structure PgPendingBuf where
  data : List Nat
  cap : Nat
deriving DecidableEq, Repr

/-- Streaming state of a PG composition (src/bdav/pg.rs,
`PgCompositionUnitState`). -/
inductive PgCompositionUnitState where
  | incremental
  | newPalette
  | epochStart
deriving DecidableEq, Repr

/-- `FromPrimitive` for `PgCompositionUnitState`. -/
def PgCompositionUnitState.fromPrimitive : Nat → Option PgCompositionUnitState
  | 0 => some .incremental
  | 1 => some .newPalette
  | 2 => some .epochStart
  | _ => none

/-- Composition descriptor (src/bdav/pg.rs, `PgCompositionDescriptor`). -/
structure PgCompositionDescriptor where
  number : Nat
  state : PgCompositionUnitState
deriving DecidableEq, Repr

/-- `PgCompositionDescriptor::parse`; an unknown state value (top two bits
of the third byte) raises `UnknownPgCompositionUnitState`. -/
def PgCompositionDescriptor.parse (r : SliceReader) :
    Except MtsError (PgCompositionDescriptor × SliceReader) :=
  match r.read_be_u16 with
  | .error e => .error e
  | .ok (number, r1) =>
    match r1.read_u8 with
    | .error e => .error e
    | .ok (b, r2) =>
      match PgCompositionUnitState.fromPrimitive (b >>> 6) with
      | none =>
        .error (r2.make_error (.appError (.unknownPgCompositionUnitState (b >>> 6))))
      | some state => .ok (⟨number, state⟩, r2)

/-- Frame rate enumeration (src/bdav/pg.rs, `FrameRate`). -/
inductive FrameRate where
  | invalid
  | drop24
  | nonDrop24
  | nonDrop25
  | drop30
  | nonDrop50
  | drop60
deriving DecidableEq, Repr

/-- `FromPrimitive` for `FrameRate`. -/
def FrameRate.fromPrimitive : Nat → Option FrameRate
  | 0 => some .invalid
  | 1 => some .drop24
  | 2 => some .nonDrop24
  | 3 => some .nonDrop25
  | 4 => some .drop30
  | 5 => some .nonDrop50
  | 6 => some .drop60
  | _ => none

/-- Video viewport descriptor (src/bdav/pg.rs, `PgVideoDescriptor`). -/
structure PgVideoDescriptor where
  video_width : Nat
  video_height : Nat
  frame_rate : FrameRate
deriving DecidableEq, Repr

/-- `PgVideoDescriptor::parse`; the frame-rate code is the top nibble of
the fifth byte and an unknown code raises `UnknownFrameRate`. -/
def PgVideoDescriptor.parse (r : SliceReader) :
    Except MtsError (PgVideoDescriptor × SliceReader) :=
  match r.read_be_u16 with
  | .error e => .error e
  | .ok (video_width, r1) =>
    match r1.read_be_u16 with
    | .error e => .error e
    | .ok (video_height, r2) =>
      match r2.read_u8 with
      | .error e => .error e
      | .ok (b, r3) =>
        match FrameRate.fromPrimitive (b >>> 4) with
        | none => .error (r3.make_error (.appError (.unknownFrameRate (b >>> 4))))
        | some frame_rate => .ok (⟨video_width, video_height, frame_rate⟩, r3)

/-- Cross-payload PG reassembly state (src/bdav/mod.rs,
`BdavParserStorage`); both hash maps are modelled as functions. -/
structure BdavParserStorage where
  pending_ig_segments : PgCompositionDescriptor → Option PgPendingBuf
  pending_obj_segments : Nat × Nat → Option PgPendingBuf

/-- Empty BDAV storage (`BdavParserStorage::default`). -/
def BdavParserStorage.empty : BdavParserStorage :=
  ⟨fun _ => none, fun _ => none⟩

/-- An indexed-color image segment (src/bdav/pg.rs, `PgsObject`). -/
structure PgsObject where
  id : Nat
  version : Nat
  sequence_descriptor : PgSequenceDescriptor
  data : Option PgsObjectData
deriving DecidableEq, Repr

/-- `PgsObject::parse` (src/bdav/pg.rs lines 114-197): the four-way
fragmentation state machine over the `(id, version)`-keyed shared storage.
Over-long fragments are truncated to the pending buffer capacity; the
single-fragment case only warns and reads everything to the end. -/
def PgsObject.parse (r : SliceReader) (storage : BdavParserStorage) :
    (Except MtsError (PgsObject × SliceReader)) × BdavParserStorage :=
  match r.read_be_u16 with
  | .error e => (.error e, storage)
  | .ok (id, r1) =>
  match r1.read_u8 with
  | .error e => (.error e, storage)
  | .ok (version, r2) =>
  match PgSequenceDescriptor.parse r2 with
  | .error e => (.error e, storage)
  | .ok (sd, r3) =>
  let key : Nat × Nat := (id, version)
  if sd.first_in_seq && sd.last_in_seq then
    match r3.read_be_u24 with
    | .error e => (.error e, storage)
    | .ok (_length, r4) =>
      match PgsObjectData.parse r4 with
      | .error e => (.error e, storage)
      | .ok (d, r5) => (.ok (⟨id, version, sd, some d⟩, r5), storage)
  else if sd.first_in_seq then
    match r3.read_be_u24 with
    | .error e => (.error e, storage)
    | .ok (length, r4) =>
      match r4.read (min r4.remaining_len length) with
      | .error e => (.error e, storage)
      | .ok (chunk, r5) =>
        (.ok (⟨id, version, sd, none⟩, r5),
         { storage with pending_obj_segments := fun k =>
             if k = key then some ⟨chunk, length⟩
             else storage.pending_obj_segments k })
  else if !sd.first_in_seq && !sd.last_in_seq then
    match storage.pending_obj_segments key with
    | some buf =>
      match r3.read (min r3.remaining_len (buf.cap - buf.data.length)) with
      | .error e => (.error e, storage)
      | .ok (chunk, r4) =>
        (.ok (⟨id, version, sd, none⟩, r4),
         { storage with pending_obj_segments := fun k =>
             if k = key then some ⟨buf.data ++ chunk, buf.cap⟩
             else storage.pending_obj_segments k })
    | none => (.error (r3.make_error (.appError .nonStartedPgsObject)), storage)
  else
    match storage.pending_obj_segments key with
    | some buf =>
      let storage1 : BdavParserStorage :=
        { storage with pending_obj_segments := fun k =>
            if k = key then none else storage.pending_obj_segments k }
      match r3.read (min r3.remaining_len (buf.cap - buf.data.length)) with
      | .error e => (.error e, storage1)
      | .ok (chunk, r4) =>
        match PgsObjectData.parse ⟨buf.data ++ chunk, 0⟩ with
        | .error e => (.error e, storage1)
        | .ok (d, _) => (.ok (⟨id, version, sd, some d⟩, r4), storage1)
    | none => (.error (r3.make_error (.appError .nonStartedPgsObject)), storage)

/-- Counted parse loop: `for _ in 0..n { v.push(p(reader)?) }`, the shape
of every count-prefixed list in src/bdav/pg.rs. -/
def parseCount (p : SliceReader → Except MtsError (α × SliceReader)) :
    Nat → SliceReader → Except MtsError (List α × SliceReader)
  | 0, r => .ok ([], r)
  | n + 1, r =>
    match p r with
    | .error e => .error e
    | .ok (a, r1) =>
      match parseCount p n r1 with
      | .error e => .error e
      | .ok (as, r2) => .ok (a :: as, r2)

/-- Sub-rectangle of a composition (src/bdav/pg.rs, `PgWindow`). -/
structure PgWindow where
  id : Nat
  x : Nat
  y : Nat
  width : Nat
  height : Nat
deriving DecidableEq, Repr

/-- `PgWindow::parse`. -/
def PgWindow.parse (r : SliceReader) : Except MtsError (PgWindow × SliceReader) :=
  match r.read_u8 with
  | .error e => .error e
  | .ok (id, r1) =>
    match r1.read_be_u16 with
    | .error e => .error e
    | .ok (x, r2) =>
      match r2.read_be_u16 with
      | .error e => .error e
      | .ok (y, r3) =>
        match r3.read_be_u16 with
        | .error e => .error e
        | .ok (width, r4) =>
          match r4.read_be_u16 with
          | .error e => .error e
          | .ok (height, r5) => .ok (⟨id, x, y, width, height⟩, r5)

/-- Window-collection segment (src/bdav/pg.rs, `PgsWindow`). -/
structure PgsWindow where
  windows : List PgWindow
deriving DecidableEq, Repr

/-- `PgsWindow::parse`: count-prefixed window list. -/
def PgsWindow.parse (r : SliceReader) (storage : α) :
    (Except MtsError (PgsWindow × SliceReader)) × α :=
  (match r.read_u8 with
  | .error e => .error e
  | .ok (num_windows, r1) =>
    match parseCount PgWindow.parse num_windows r1 with
    | .error e => .error e
    | .ok (windows, r2) => .ok (⟨windows⟩, r2), storage)

/-- Clipping rectangle (src/bdav/pg.rs, `PgCrop`). -/
structure PgCrop where
  x : Nat
  y : Nat
  w : Nat
  h : Nat
deriving DecidableEq, Repr

/-- `PgCrop::parse`. -/
def PgCrop.parse (r : SliceReader) : Except MtsError (PgCrop × SliceReader) :=
  match r.read_be_u16 with
  | .error e => .error e
  | .ok (x, r1) =>
    match r1.read_be_u16 with
    | .error e => .error e
    | .ok (y, r2) =>
      match r2.read_be_u16 with
      | .error e => .error e
      | .ok (w, r3) =>
        match r3.read_be_u16 with
        | .error e => .error e
        | .ok (h, r4) => .ok (⟨x, y, w, h⟩, r4)

/-- Positioned element of a composition (src/bdav/pg.rs,
`PgCompositionObject`). -/
structure PgCompositionObject where
  object_id_ref : Nat
  window_id_ref : Nat
  forced_on_flag : Bool
  x : Nat
  y : Nat
  crop : Option PgCrop
deriving DecidableEq, Repr

/-- `PgCompositionObject::parse`: bit 7 of the flag byte selects an
optional crop rectangle, bit 6 is forced-on. -/
def PgCompositionObject.parse (r : SliceReader) :
    Except MtsError (PgCompositionObject × SliceReader) :=
  match r.read_be_u16 with
  | .error e => .error e
  | .ok (object_id_ref, r1) =>
    match r1.read_u8 with
    | .error e => .error e
    | .ok (window_id_ref, r2) =>
      match r2.read_u8 with
      | .error e => .error e
      | .ok (bits, r3) =>
        match r3.read_be_u16 with
        | .error e => .error e
        | .ok (x, r4) =>
          match r4.read_be_u16 with
          | .error e => .error e
          | .ok (y, r5) =>
            if bitFlag bits 0x80 then
              match PgCrop.parse r5 with
              | .error e => .error e
              | .ok (c, r6) =>
                .ok (⟨object_id_ref, window_id_ref, bitFlag bits 0x40, x, y, some c⟩, r6)
            else
              .ok (⟨object_id_ref, window_id_ref, bitFlag bits 0x40, x, y, none⟩, r5)

/-- Program graphics composition segment (src/bdav/pg.rs,
`PgsPgComposition`). -/
structure PgsPgComposition where
  video_descriptor : PgVideoDescriptor
  composition_descriptor : PgCompositionDescriptor
  palette_update_flag : Bool
  palette_id_ref : Nat
  composition_objects : List PgCompositionObject
deriving DecidableEq, Repr

/-- `PgsPgComposition::parse`. -/
def PgsPgComposition.parse (r : SliceReader) (storage : α) :
    (Except MtsError (PgsPgComposition × SliceReader)) × α :=
  (match PgVideoDescriptor.parse r with
  | .error e => .error e
  | .ok (vd, r1) =>
    match PgCompositionDescriptor.parse r1 with
    | .error e => .error e
    | .ok (cd, r2) =>
      match r2.read_u8 with
      | .error e => .error e
      | .ok (pu, r3) =>
        match r3.read_u8 with
        | .error e => .error e
        | .ok (palette_id_ref, r4) =>
          match r4.read_u8 with
          | .error e => .error e
          | .ok (num_objects, r5) =>
            match parseCount PgCompositionObject.parse num_objects r5 with
            | .error e => .error e
            | .ok (objs, r6) =>
              .ok (⟨vd, cd, bitFlag pu 0x80, palette_id_ref, objs⟩, r6), storage)

/-- Timed effect of an IG composition (src/bdav/pg.rs, `IgEffect`). -/
structure IgEffect where
  duration : Nat
  palette_id_ref : Nat
  composition_objects : List PgCompositionObject
deriving DecidableEq, Repr

/-- `IgEffect::parse`. -/
def IgEffect.parse (r : SliceReader) : Except MtsError (IgEffect × SliceReader) :=
  match r.read_be_u24 with
  | .error e => .error e
  | .ok (duration, r1) =>
    match r1.read_u8 with
    | .error e => .error e
    | .ok (palette_id_ref, r2) =>
      match r2.read_u8 with
      | .error e => .error e
      | .ok (num_objects, r3) =>
        match parseCount PgCompositionObject.parse num_objects r3 with
        | .error e => .error e
        | .ok (objs, r4) => .ok (⟨duration, palette_id_ref, objs⟩, r4)

/-- Window/effect animation sequence (src/bdav/pg.rs, `IgEffectSequence`). -/
structure IgEffectSequence where
  windows : List PgWindow
  effects : List IgEffect
deriving DecidableEq, Repr

/-- `IgEffectSequence::parse`. -/
def IgEffectSequence.parse (r : SliceReader) :
    Except MtsError (IgEffectSequence × SliceReader) :=
  match r.read_u8 with
  | .error e => .error e
  | .ok (num_windows, r1) =>
    match parseCount PgWindow.parse num_windows r1 with
    | .error e => .error e
    | .ok (windows, r2) =>
      match r2.read_u8 with
      | .error e => .error e
      | .ok (num_effects, r3) =>
        match parseCount IgEffect.parse num_effects r3 with
        | .error e => .error e
        | .ok (effects, r4) => .ok (⟨windows, effects⟩, r4)

/-- User-operation mask (src/bdav/pg.rs, `UoMask`): an 8-byte MSB-first
bitfield of permission flags, kept here as the raw big-endian value (each
source accessor is a fixed bit test on it). -/
structure UoMask where
  bits : Nat
deriving DecidableEq, Repr

/-- Complete interactive button definition (src/bdav/pg.rs, `IgButton`). -/
structure IgButton where
  id : Nat
  numeric_select_value : Nat
  auto_action_flag : Bool
  x_pos : Nat
  y_pos : Nat
  upper_button_id_ref : Nat
  lower_button_id_ref : Nat
  left_button_id_ref : Nat
  right_button_id_ref : Nat
  normal_start_object_id_ref : Nat
  normal_end_object_id_ref : Nat
  normal_repeat_flag : Bool
  selected_sound_id_ref : Nat
  selected_start_object_id_ref : Nat
  selected_end_object_id_ref : Nat
  selected_repeat_flag : Bool
  activated_sound_id_ref : Nat
  activated_start_object_id_ref : Nat
  activated_end_object_id_ref : Nat
  nav_cmds : List MObjCmd
deriving DecidableEq, Repr

/-- `IgButton::parse`: fixed header fields then a u16-counted list of MObj
commands. -/
def IgButton.parse (r : SliceReader) : Except MtsError (IgButton × SliceReader) :=
  match r.read_be_u16 with
  | .error e => .error e
  | .ok (id, r1) =>
  match r1.read_be_u16 with
  | .error e => .error e
  | .ok (numeric_select_value, r2) =>
  match r2.read_u8 with
  | .error e => .error e
  | .ok (aa, r3) =>
  match r3.read_be_u16 with
  | .error e => .error e
  | .ok (x_pos, r4) =>
  match r4.read_be_u16 with
  | .error e => .error e
  | .ok (y_pos, r5) =>
  match r5.read_be_u16 with
  | .error e => .error e
  | .ok (upper, r6) =>
  match r6.read_be_u16 with
  | .error e => .error e
  | .ok (lower, r7) =>
  match r7.read_be_u16 with
  | .error e => .error e
  | .ok (left, r8) =>
  match r8.read_be_u16 with
  | .error e => .error e
  | .ok (right, r9) =>
  match r9.read_be_u16 with
  | .error e => .error e
  | .ok (ns, r10) =>
  match r10.read_be_u16 with
  | .error e => .error e
  | .ok (ne, r11) =>
  match r11.read_u8 with
  | .error e => .error e
  | .ok (nrep, r12) =>
  match r12.read_u8 with
  | .error e => .error e
  | .ok (ssound, r13) =>
  match r13.read_be_u16 with
  | .error e => .error e
  | .ok (ss, r14) =>
  match r14.read_be_u16 with
  | .error e => .error e
  | .ok (se, r15) =>
  match r15.read_u8 with
  | .error e => .error e
  | .ok (srep, r16) =>
  match r16.read_u8 with
  | .error e => .error e
  | .ok (asound, r17) =>
  match r17.read_be_u16 with
  | .error e => .error e
  | .ok (as_, r18) =>
  match r18.read_be_u16 with
  | .error e => .error e
  | .ok (ae, r19) =>
  match r19.read_be_u16 with
  | .error e => .error e
  | .ok (num_nav_cmds, r20) =>
  match parseCount MObjCmd.parse num_nav_cmds r20 with
  | .error e => .error e
  | .ok (nav_cmds, r21) =>
    .ok (⟨id, numeric_select_value, bitFlag aa 0x80, x_pos, y_pos, upper, lower,
      left, right, ns, ne, bitFlag nrep 0x80, ssound, ss, se, bitFlag srep 0x80,
      asound, as_, ae, nav_cmds⟩, r21)

/-- Button-overlap group (src/bdav/pg.rs, `IgBog`). -/
structure IgBog where
  default_valid_button_id_ref : Nat
  buttons : List IgButton
deriving DecidableEq, Repr

/-- `IgBog::parse`. -/
def IgBog.parse (r : SliceReader) : Except MtsError (IgBog × SliceReader) :=
  match r.read_be_u16 with
  | .error e => .error e
  | .ok (dflt, r1) =>
    match r1.read_u8 with
    | .error e => .error e
    | .ok (num_buttons, r2) =>
      match parseCount IgButton.parse num_buttons r2 with
      | .error e => .error e
      | .ok (buttons, r3) => .ok (⟨dflt, buttons⟩, r3)

/-- Page of interactive buttons (src/bdav/pg.rs, `IgPage`). -/
structure IgPage where
  id : Nat
  version : Nat
  uo_mask : UoMask
  in_effects : IgEffectSequence
  out_effects : IgEffectSequence
  animation_frame_rate_code : Nat
  default_selected_button_id_ref : Nat
  default_activated_button_id_ref : Nat
  palette_id_ref : Nat
  bogs : List IgBog
deriving DecidableEq, Repr

/-- `IgPage::parse`. -/
def IgPage.parse (r : SliceReader) : Except MtsError (IgPage × SliceReader) :=
  match r.read_u8 with
  | .error e => .error e
  | .ok (id, r1) =>
  match r1.read_u8 with
  | .error e => .error e
  | .ok (version, r2) =>
  match r2.read_array_ref 8 with
  | .error e => .error e
  | .ok (uo, r3) =>
  match IgEffectSequence.parse r3 with
  | .error e => .error e
  | .ok (in_effects, r4) =>
  match IgEffectSequence.parse r4 with
  | .error e => .error e
  | .ok (out_effects, r5) =>
  match r5.read_u8 with
  | .error e => .error e
  | .ok (afrc, r6) =>
  match r6.read_be_u16 with
  | .error e => .error e
  | .ok (dsel, r7) =>
  match r7.read_be_u16 with
  | .error e => .error e
  | .ok (dact, r8) =>
  match r8.read_u8 with
  | .error e => .error e
  | .ok (palette_id_ref, r9) =>
  match r9.read_u8 with
  | .error e => .error e
  | .ok (num_bogs, r10) =>
  match parseCount IgBog.parse num_bogs r10 with
  | .error e => .error e
  | .ok (bogs, r11) =>
    .ok (⟨id, version, ⟨beValue uo⟩, in_effects, out_effects, afrc, dsel, dact,
      palette_id_ref, bogs⟩, r11)

/-- UI model of an interactive composition (src/bdav/pg.rs, `IgUiModel`). -/
inductive IgUiModel where
  | alwaysOn
  | popup
deriving DecidableEq, Repr

/-- Interactive UI composition (src/bdav/pg.rs,
`IgInteractiveComposition`). -/
structure IgInteractiveComposition where
  stream_model : Bool
  ui_model : IgUiModel
  composition_timeout_pts : Option Nat
  selection_timeout_pts : Option Nat
  user_timeout_duration : Nat
  pages : List IgPage
deriving DecidableEq, Repr

/-- `IgInteractiveComposition::parse`: timeouts are present only when the
stream-model bit is clear; a non-empty remainder only warns. -/
def IgInteractiveComposition.parse (r : SliceReader) :
    Except MtsError (IgInteractiveComposition × SliceReader) :=
  match r.read_u8 with
  | .error e => .error e
  | .ok (model_bits, r1) =>
  let stream_model := bitFlag model_bits 0x80
  match (if stream_model then .ok ((none, none), r1) else
    match r1.read_be_u33 with
    | .error e => .error e
    | .ok (ct, r2) =>
      match r2.read_be_u33 with
      | .error e => .error e
      | .ok (st, r3) => .ok ((some ct, some st), r3) :
      Except MtsError ((Option Nat × Option Nat) × SliceReader)) with
  | .error e => .error e
  | .ok ((composition_timeout_pts, selection_timeout_pts), r4) =>
  match r4.read_be_u24 with
  | .error e => .error e
  | .ok (user_timeout_duration, r5) =>
  match r5.read_u8 with
  | .error e => .error e
  | .ok (num_pages, r6) =>
  match parseCount IgPage.parse num_pages r6 with
  | .error e => .error e
  | .ok (pages, r7) =>
    .ok (⟨stream_model,
      (if bitFlag model_bits 0x40 then .popup else .alwaysOn),
      composition_timeout_pts, selection_timeout_pts,
      user_timeout_duration, pages⟩, r7)

/-- Interactive composition segment (src/bdav/pg.rs, `PgsIgComposition`). -/
structure PgsIgComposition where
  video_descriptor : PgVideoDescriptor
  composition_descriptor : PgCompositionDescriptor
  sequence_descriptor : PgSequenceDescriptor
  interactive_composition : Option IgInteractiveComposition
deriving DecidableEq, Repr

/-- `PgsIgComposition::parse` (src/bdav/pg.rs lines 805-898): the same
four-way fragmentation machine as `PgsObject::parse`, keyed by the full
composition descriptor. -/
def PgsIgComposition.parse (r : SliceReader) (storage : BdavParserStorage) :
    (Except MtsError (PgsIgComposition × SliceReader)) × BdavParserStorage :=
  match PgVideoDescriptor.parse r with
  | .error e => (.error e, storage)
  | .ok (vd, r1) =>
  match PgCompositionDescriptor.parse r1 with
  | .error e => (.error e, storage)
  | .ok (cd, r2) =>
  match PgSequenceDescriptor.parse r2 with
  | .error e => (.error e, storage)
  | .ok (sd, r3) =>
  if sd.first_in_seq && sd.last_in_seq then
    match r3.read_be_u24 with
    | .error e => (.error e, storage)
    | .ok (_length, r4) =>
      match IgInteractiveComposition.parse r4 with
      | .error e => (.error e, storage)
      | .ok (ic, r5) => (.ok (⟨vd, cd, sd, some ic⟩, r5), storage)
  else if sd.first_in_seq then
    match r3.read_be_u24 with
    | .error e => (.error e, storage)
    | .ok (length, r4) =>
      match r4.read (min r4.remaining_len length) with
      | .error e => (.error e, storage)
      | .ok (chunk, r5) =>
        (.ok (⟨vd, cd, sd, none⟩, r5),
         { storage with pending_ig_segments := fun k =>
             if k = cd then some ⟨chunk, length⟩
             else storage.pending_ig_segments k })
  else if !sd.first_in_seq && !sd.last_in_seq then
    match storage.pending_ig_segments cd with
    | some buf =>
      match r3.read (min r3.remaining_len (buf.cap - buf.data.length)) with
      | .error e => (.error e, storage)
      | .ok (chunk, r4) =>
        (.ok (⟨vd, cd, sd, none⟩, r4),
         { storage with pending_ig_segments := fun k =>
             if k = cd then some ⟨buf.data ++ chunk, buf.cap⟩
             else storage.pending_ig_segments k })
    | none => (.error (r3.make_error (.appError .nonStartedPgsIgComposition)), storage)
  else
    match storage.pending_ig_segments cd with
    | some buf =>
      let storage1 : BdavParserStorage :=
        { storage with pending_ig_segments := fun k =>
            if k = cd then none else storage.pending_ig_segments k }
      match r3.read (min r3.remaining_len (buf.cap - buf.data.length)) with
      | .error e => (.error e, storage1)
      | .ok (chunk, r4) =>
        match IgInteractiveComposition.parse ⟨buf.data ++ chunk, 0⟩ with
        | .error e => (.error e, storage1)
        | .ok (ic, _) => (.ok (⟨vd, cd, sd, some ic⟩, r4), storage1)
    | none => (.error (r3.make_error (.appError .nonStartedPgsIgComposition)), storage)

/-- End-of-display marker segment (src/bdav/pg.rs, `PgsEndOfDisplay`). -/
structure PgsEndOfDisplay : Type
deriving DecidableEq, Repr

/-- `PgsEndOfDisplay::parse`: consumes nothing. -/
def PgsEndOfDisplay.parse (r : SliceReader) (storage : α) :
    (Except MtsError (PgsEndOfDisplay × SliceReader)) × α :=
  (.ok (⟨⟩, r), storage)

/-- Rectangle dimensions (src/bdav/pg.rs, `TgRect`). -/
structure TgRect where
  xpos : Nat
  ypos : Nat
  width : Nat
  height : Nat
deriving DecidableEq, Repr

/-- `TgRect::parse`. -/
def TgRect.parse (r : SliceReader) : Except MtsError (TgRect × SliceReader) :=
  match r.read_be_u16 with
  | .error e => .error e
  | .ok (xpos, r1) =>
    match r1.read_be_u16 with
    | .error e => .error e
    | .ok (ypos, r2) =>
      match r2.read_be_u16 with
      | .error e => .error e
      | .ok (width, r3) =>
        match r3.read_be_u16 with
        | .error e => .error e
        | .ok (height, r4) => .ok (⟨xpos, ypos, width, height⟩, r4)

/-- Text region background info (src/bdav/pg.rs, `TgRegionInfo`). -/
structure TgRegionInfo where
  region : TgRect
  background_color : Nat
deriving DecidableEq, Repr

/-- `TgRegionInfo::parse`: rectangle, background palette index, one skipped
byte. -/
def TgRegionInfo.parse (r : SliceReader) :
    Except MtsError (TgRegionInfo × SliceReader) :=
  match TgRect.parse r with
  | .error e => .error e
  | .ok (region, r1) =>
    match r1.read_u8 with
    | .error e => .error e
    | .ok (background_color, r2) =>
      match r2.skip 1 with
      | .error e => .error e
      | .ok r3 => .ok (⟨region, background_color⟩, r3)

/-- Text flow direction (src/bdav/pg.rs, `TgTextFlow`). -/
inductive TgTextFlow where
  | leftRight
  | rightLeft
  | topBottom
deriving DecidableEq, Repr

/-- `FromPrimitive` for `TgTextFlow` (discriminants 1..=3). -/
def TgTextFlow.fromPrimitive : Nat → Option TgTextFlow
  | 1 => some .leftRight
  | 2 => some .rightLeft
  | 3 => some .topBottom
  | _ => none

/-- Horizontal text alignment (src/bdav/pg.rs, `TgHAlign`). -/
inductive TgHAlign where
  | left
  | center
  | right
deriving DecidableEq, Repr

/-- `FromPrimitive` for `TgHAlign` (discriminants 1..=3). -/
def TgHAlign.fromPrimitive : Nat → Option TgHAlign
  | 1 => some .left
  | 2 => some .center
  | 3 => some .right
  | _ => none

/-- Vertical text alignment (src/bdav/pg.rs, `TgVAlign`). -/
inductive TgVAlign where
  | top
  | middle
  | bottom
deriving DecidableEq, Repr

/-- `FromPrimitive` for `TgVAlign` (discriminants 1..=3). -/
def TgVAlign.fromPrimitive : Nat → Option TgVAlign
  | 1 => some .top
  | 2 => some .middle
  | 3 => some .bottom
  | _ => none

/-- Font style bits (src/bdav/pg.rs, `TgFontStyle`): one byte whose low
three bits are bold, italic, outline-border. -/
structure TgFontStyle where
  bold : Bool
  italic : Bool
  outline_border : Bool
deriving DecidableEq, Repr

/-- Text outline thickness (src/bdav/pg.rs, `TgOutlineThickness`). -/
inductive TgOutlineThickness where
  | thin
  | medium
  | thick
deriving DecidableEq, Repr

/-- `FromPrimitive` for `TgOutlineThickness` (discriminants 1..=3). -/
def TgOutlineThickness.fromPrimitive : Nat → Option TgOutlineThickness
  | 1 => some .thin
  | 2 => some .medium
  | 3 => some .thick
  | _ => none

/-- Style parameters for a text region (src/bdav/pg.rs, `TgRegionStyle`). -/
structure TgRegionStyle where
  region_style_id : Nat
  region_info : TgRegionInfo
  text_box : TgRect
  text_flow : TgTextFlow
  text_halign : TgHAlign
  text_valign : TgVAlign
  line_space : Nat
  font_id_ref : Nat
  font_style : TgFontStyle
  font_size : Nat
  font_color : Nat
  outline_color : Nat
  outline_thickness : TgOutlineThickness
deriving DecidableEq, Repr

/-- `TgRegionStyle::parse`; each closed-enum byte raises its own
`UnknownTgXxx` error at the post-read position when out of range. -/
def TgRegionStyle.parse (r : SliceReader) :
    Except MtsError (TgRegionStyle × SliceReader) :=
  match r.read_u8 with
  | .error e => .error e
  | .ok (region_style_id, r1) =>
  match TgRegionInfo.parse r1 with
  | .error e => .error e
  | .ok (region_info, r2) =>
  match TgRect.parse r2 with
  | .error e => .error e
  | .ok (text_box, r3) =>
  match r3.read_u8 with
  | .error e => .error e
  | .ok (tf, r4) =>
  match TgTextFlow.fromPrimitive tf with
  | none => .error (r4.make_error (.appError (.unknownTgTextFlow tf)))
  | some text_flow =>
  match r4.read_u8 with
  | .error e => .error e
  | .ok (th, r5) =>
  match TgHAlign.fromPrimitive th with
  | none => .error (r5.make_error (.appError (.unknownTgHAlign th)))
  | some text_halign =>
  match r5.read_u8 with
  | .error e => .error e
  | .ok (tv, r6) =>
  match TgVAlign.fromPrimitive tv with
  | none => .error (r6.make_error (.appError (.unknownTgVAlign tv)))
  | some text_valign =>
  match r6.read_u8 with
  | .error e => .error e
  | .ok (line_space, r7) =>
  match r7.read_u8 with
  | .error e => .error e
  | .ok (font_id_ref, r8) =>
  match r8.read_u8 with
  | .error e => .error e
  | .ok (fs, r9) =>
  match r9.read_u8 with
  | .error e => .error e
  | .ok (font_size, r10) =>
  match r10.read_u8 with
  | .error e => .error e
  | .ok (font_color, r11) =>
  match r11.read_u8 with
  | .error e => .error e
  | .ok (outline_color, r12) =>
  match r12.read_u8 with
  | .error e => .error e
  | .ok (ot, r13) =>
  match TgOutlineThickness.fromPrimitive ot with
  | none => .error (r13.make_error (.appError (.unknownTgOutlineThickness ot)))
  | some outline_thickness =>
    .ok (⟨region_style_id, region_info, text_box, text_flow, text_halign,
      text_valign, line_space, font_id_ref,
      ⟨bitFlag fs 0x4, bitFlag fs 0x2, bitFlag fs 0x1⟩,
      font_size, font_color, outline_color, outline_thickness⟩, r13)

/-- Signed-magnitude value of a `w`-bit field: sign in the top bit,
magnitude in the rest.
Modelled from the spec: `SliceReader::read_be_sm16` / `read_sm8` are used
by `TgUserStyle::parse` (src/bdav/pg.rs) but are not present in
src/slice_reader.rs; the spec describes the user-style deltas as
signed-magnitude 16-bit (and 8-bit) values. -/
def signedMagnitude (w v : Nat) : Int :=
  if v &&& (2 ^ (w - 1)) ≠ 0 then -(Int.ofNat (v &&& (2 ^ (w - 1) - 1)))
  else Int.ofNat v

/-- Modelled from the spec: `SliceReader::read_be_sm16` (big-endian 16-bit
signed-magnitude read missing from src/slice_reader.rs). -/
def SliceReader.read_be_sm16 (r : SliceReader) : Except MtsError (Int × SliceReader) :=
  match r.read_be_u16 with
  | .error e => .error e
  | .ok (v, r') => .ok (signedMagnitude 16 v, r')

/-- Modelled from the spec: `SliceReader::read_sm8` (8-bit signed-magnitude
read missing from src/slice_reader.rs). -/
def SliceReader.read_sm8 (r : SliceReader) : Except MtsError (Int × SliceReader) :=
  match r.read_u8 with
  | .error e => .error e
  | .ok (v, r') => .ok (signedMagnitude 8 v, r')

/-- User style deltas (src/bdav/pg.rs, `TgUserStyle`). -/
structure TgUserStyle where
  user_style_id : Nat
  region_hpos_delta : Int
  region_vpos_delta : Int
  text_box_hpos_delta : Int
  text_box_vpos_delta : Int
  text_box_width_delta : Int
  text_box_height_delta : Int
  font_size_delta : Int
  line_space_delta : Int
deriving DecidableEq, Repr

/-- `TgUserStyle::parse`. -/
def TgUserStyle.parse (r : SliceReader) :
    Except MtsError (TgUserStyle × SliceReader) :=
  match r.read_u8 with
  | .error e => .error e
  | .ok (user_style_id, r1) =>
  match r1.read_be_sm16 with
  | .error e => .error e
  | .ok (rh, r2) =>
  match r2.read_be_sm16 with
  | .error e => .error e
  | .ok (rv, r3) =>
  match r3.read_be_sm16 with
  | .error e => .error e
  | .ok (th, r4) =>
  match r4.read_be_sm16 with
  | .error e => .error e
  | .ok (tv, r5) =>
  match r5.read_be_sm16 with
  | .error e => .error e
  | .ok (tw, r6) =>
  match r6.read_be_sm16 with
  | .error e => .error e
  | .ok (tht, r7) =>
  match r7.read_sm8 with
  | .error e => .error e
  | .ok (fs, r8) =>
  match r8.read_sm8 with
  | .error e => .error e
  | .ok (ls, r9) =>
    .ok (⟨user_style_id, rh, rv, th, tv, tw, tht, fs, ls⟩, r9)

/-- Loop body of `read_palette_entries` (src/bdav/pg.rs): a
`u16 / 5`-counted sequence of (index, Y, Cr, Cb, T) quintuples updating a
256-entry table. -/
def paletteEntriesLoop (entries : Nat → PgsPaletteEntry) :
    Nat → SliceReader → Except MtsError ((Nat → PgsPaletteEntry) × SliceReader)
  | 0, r => .ok (entries, r)
  | n + 1, r =>
    match r.read_u8 with
    | .error e => .error e
    | .ok (i, r1) =>
    match r1.read_u8 with
    | .error e => .error e
    | .ok (y, r2) =>
    match r2.read_u8 with
    | .error e => .error e
    | .ok (cr, r3) =>
    match r3.read_u8 with
    | .error e => .error e
    | .ok (cb, r4) =>
    match r4.read_u8 with
    | .error e => .error e
    | .ok (t, r5) =>
      paletteEntriesLoop (fun q => if q = i then ⟨y, cr, cb, t⟩ else entries q) n r5

/-- `read_palette_entries` (src/bdav/pg.rs lines 1137-1150). -/
def read_palette_entries (r : SliceReader) :
    Except MtsError ((Nat → PgsPaletteEntry) × SliceReader) :=
  match r.read_be_u16 with
  | .error e => .error e
  | .ok (count, r1) =>
    paletteEntriesLoop (fun _ => PgsPaletteEntry.default) (count / 5) r1

/-- Container of text styles (src/bdav/pg.rs, `TgDialogStyle`); the
256-entry palette is a total function as in `PgsPalette`. -/
structure TgDialogStyle where
  player_style_flag : Bool
  region_styles : List TgRegionStyle
  user_styles : List TgUserStyle
  palette_entries : Nat → PgsPaletteEntry

/-- `TgDialogStyle::parse`. -/
def TgDialogStyle.parse (r : SliceReader) :
    Except MtsError (TgDialogStyle × SliceReader) :=
  match r.read_be_u16 with
  | .error e => .error e
  | .ok (psf, r1) =>
  match r1.read_u8 with
  | .error e => .error e
  | .ok (num_region_styles, r2) =>
  match parseCount TgRegionStyle.parse num_region_styles r2 with
  | .error e => .error e
  | .ok (region_styles, r3) =>
  match r3.read_u8 with
  | .error e => .error e
  | .ok (num_user_styles, r4) =>
  match parseCount TgUserStyle.parse num_user_styles r4 with
  | .error e => .error e
  | .ok (user_styles, r5) =>
  match read_palette_entries r5 with
  | .error e => .error e
  | .ok (palette_entries, r6) =>
    .ok (⟨bitFlag psf 0x8000, region_styles, user_styles, palette_entries⟩, r6)

/-- Dialog style segment (src/bdav/pg.rs, `TgsDialogStyle`). -/
structure TgsDialogStyle where
  style : TgDialogStyle
  num_dialogs : Nat

/-- `TgsDialogStyle::parse`. -/
def TgsDialogStyle.parse (r : SliceReader) (storage : α) :
    (Except MtsError (TgsDialogStyle × SliceReader)) × α :=
  (match TgDialogStyle.parse r with
  | .error e => .error e
  | .ok (style, r1) =>
    match r1.read_be_u16 with
    | .error e => .error e
    | .ok (num_dialogs, r2) => .ok (⟨style, num_dialogs⟩, r2), storage)

/-- One presented dialog region (src/bdav/pg.rs, `TgDialogRegion`). -/
structure TgDialogRegion where
  continuous_present_flag : Bool
  forced_on_flag : Bool
  region_style_id_ref : Nat
  data : List Nat
deriving DecidableEq, Repr

/-- `TgDialogRegion::parse`. -/
def TgDialogRegion.parse (r : SliceReader) :
    Except MtsError (TgDialogRegion × SliceReader) :=
  match r.read_u8 with
  | .error e => .error e
  | .ok (bits, r1) =>
  match r1.read_u8 with
  | .error e => .error e
  | .ok (region_style_id_ref, r2) =>
  match r2.read_be_u16 with
  | .error e => .error e
  | .ok (data_length, r3) =>
  match r3.read data_length with
  | .error e => .error e
  | .ok (data, r4) =>
    .ok (⟨bitFlag bits 0x80, bitFlag bits 0x40, region_style_id_ref, data⟩, r4)

/-- Dialog presentation segment (src/bdav/pg.rs, `TgsDialogPresentation`). -/
structure TgsDialogPresentation where
  start_pts : Nat
  end_pts : Nat
  palette_update : Option (Nat → PgsPaletteEntry)
  regions : List TgDialogRegion

/-- `TgsDialogPresentation::parse`: at most two regions are read (a larger
count only warns). -/
def TgsDialogPresentation.parse (r : SliceReader) (storage : α) :
    (Except MtsError (TgsDialogPresentation × SliceReader)) × α :=
  (match r.read_be_u33 with
  | .error e => .error e
  | .ok (start_pts, r1) =>
  match r1.read_be_u33 with
  | .error e => .error e
  | .ok (end_pts, r2) =>
  match r2.read_u8 with
  | .error e => .error e
  | .ok (pu, r3) =>
  match (if bitFlag pu 0x80 then
      match read_palette_entries r3 with
      | .error e => .error e
      | .ok (p, r4) => .ok (some p, r4)
    else .ok (none, r3) :
    Except MtsError (Option (Nat → PgsPaletteEntry) × SliceReader)) with
  | .error e => .error e
  | .ok (palette_update, r5) =>
  match r5.read_u8 with
  | .error e => .error e
  | .ok (region_count, r6) =>
  match parseCount TgDialogRegion.parse (min region_count 2) r6 with
  | .error e => .error e
  | .ok (regions, r7) =>
    .ok (⟨start_pts, end_pts, palette_update, regions⟩, r7), storage)

/-- A PG PES unit payload (src/bdav/pg.rs, `PgSegmentData`): raw while
accumulating, a parsed segment variant once finished. -/
inductive PgSegmentData where
  | raw (data : List Nat)
  | pgsPalette (v : PgsPalette)
  | pgsObject (v : PgsObject)
  | pgsPgComposition (v : PgsPgComposition)
  | pgsWindow (v : PgsWindow)
  | pgsIgComposition (v : PgsIgComposition)
  | pgsEndOfDisplay (v : PgsEndOfDisplay)
  | tgsDialogStyle (v : TgsDialogStyle)
  | tgsDialogPresentation (v : TgsDialogPresentation)

/-- `parse_pg_segment_data` (src/bdav/pg.rs lines 1300-1315): reads one
segment - a type byte, a big-endian u16 length and a bounded sub-view of
that many bytes handed to the decoder selected by the type byte; an
unrecognised type raises `UnknownPgSegmentType`.  Bytes after the one
segment remain unread in the dropped outer reader (the trailing
`remaining_len` test of the sub-view only logs a warning). -/
def parse_pg_segment_data (r : SliceReader) (storage : BdavParserStorage) :
    (Except MtsError PgSegmentData) × BdavParserStorage :=
  match r.read_u8 with
  | .error e => (.error e, storage)
  | .ok (seg_type, r1) =>
  match r1.read_be_u16 with
  | .error e => (.error e, storage)
  | .ok (seg_length, r2) =>
  match r2.new_sub_reader seg_length with
  | .error e => (.error e, storage)
  | .ok (seg_reader, _r3) =>
    match seg_type with
    | 0x14 =>
      match PgsPalette.parse seg_reader storage with
      | (.error e, st) => (.error e, st)
      | (.ok (v, _), st) => (.ok (.pgsPalette v), st)
    | 0x15 =>
      match PgsObject.parse seg_reader storage with
      | (.error e, st) => (.error e, st)
      | (.ok (v, _), st) => (.ok (.pgsObject v), st)
    | 0x16 =>
      match PgsPgComposition.parse seg_reader storage with
      | (.error e, st) => (.error e, st)
      | (.ok (v, _), st) => (.ok (.pgsPgComposition v), st)
    | 0x17 =>
      match PgsWindow.parse seg_reader storage with
      | (.error e, st) => (.error e, st)
      | (.ok (v, _), st) => (.ok (.pgsWindow v), st)
    | 0x18 =>
      match PgsIgComposition.parse seg_reader storage with
      | (.error e, st) => (.error e, st)
      | (.ok (v, _), st) => (.ok (.pgsIgComposition v), st)
    | 0x80 =>
      match PgsEndOfDisplay.parse seg_reader storage with
      | (.error e, st) => (.error e, st)
      | (.ok (v, _), st) => (.ok (.pgsEndOfDisplay v), st)
    | 0x81 =>
      match TgsDialogStyle.parse seg_reader storage with
      | (.error e, st) => (.error e, st)
      | (.ok (v, _), st) => (.ok (.tgsDialogStyle v), st)
    | 0x82 =>
      match TgsDialogPresentation.parse seg_reader storage with
      | (.error e, st) => (.error e, st)
      | (.ok (v, _), st) => (.ok (.tgsDialogPresentation v), st)
    | _ =>
      (.error (seg_reader.make_error (.appError (.unknownPgSegmentType seg_type))),
       storage)

/-- `PgSegmentData::extend_from_slice`: only legal while raw; otherwise the
source panics (`none`). -/
def PgSegmentData.extend_from_slice (s : PgSegmentData) (bytes : List Nat) :
    Option PgSegmentData :=
  match s with
  | .raw data => some (.raw (data ++ bytes))
  | _ => none

/-- `PgSegmentData::finish` (src/bdav/pg.rs lines 1372-1383): parses the
accumulated raw bytes with `parse_pg_segment_data` over a fresh reader;
panics (`none`) when not raw. -/
def PgSegmentData.finish (s : PgSegmentData) (storage : BdavParserStorage) :
    Option ((Except MtsError PgSegmentData) × BdavParserStorage) :=
  match s with
  | .raw data => some (parse_pg_segment_data ⟨data, 0⟩ storage)
  | _ => none

/-- One shift step of the non-reflected CRC-32/MPEG-2 (polynomial
0x04C11DB7), over a 32-bit state. -/
def crcShiftStep (s : Nat) : Nat :=
  if s &&& 0x80000000 ≠ 0 then ((s <<< 1) ^^^ 0x04C11DB7) &&& 0xFFFFFFFF
  else (s <<< 1) &&& 0xFFFFFFFF

/-- Feed one byte into the CRC-32/MPEG-2 state. -/
def crcFeedByte (s b : Nat) : Nat :=
  crcShiftStep^[8] ((s ^^^ (b <<< 24)) &&& 0xFFFFFFFF)

/-- `Digest::update`: feed a byte sequence into the CRC-32/MPEG-2 state.
`Digest::finalize` is the identity for this algorithm (refout = false,
xorout = 0), so a finalized digest is the state itself. -/
def crcUpdate (s : Nat) (bytes : List Nat) : Nat :=
  bytes.foldl crcFeedByte s

/-- `CRC.digest()` initial state of CRC-32/MPEG-2 (init = 0xFFFFFFFF). -/
def crcInit : Nat := 0xFFFFFFFF

/-- PSI section header (src/psi.rs, `PsiHeader`): table_id(8),
section_syntax_indicator, private_bit, reserved(2), unused(2),
section_length(10), MSB-first over 3 bytes. -/
structure PsiHeader where
  table_id : Nat
  section_syntax_indicator : Bool
  private_bit : Bool
  reserved_bits : Nat
  section_length : Nat
deriving DecidableEq, Repr

/-- `PsiHeader::from_bytes` over the 3 header bytes. -/
def PsiHeader.fromBytes (b0 b1 b2 : Nat) : PsiHeader :=
  { table_id := b0
    section_syntax_indicator := bitFlag b1 0x80
    private_bit := bitFlag b1 0x40
    reserved_bits := (b1 >>> 4) &&& 0x3
    section_length := 256 * (b1 &&& 0x3) + b2 }

/-- PSI table syntax (src/psi.rs, `PsiTableSyntax`) over 5 bytes. -/
structure PsiTableSyntaxData where
  table_id_extension : Nat
  reserved_bits : Nat
  version : Nat
  current_next_indicator : Bool
  section_num : Nat
  last_section_num : Nat
deriving DecidableEq, Repr

/-- `PsiTableSyntax::from_bytes` over the 5 table-syntax bytes. -/
def PsiTableSyntaxData.fromBytes (b0 b1 b2 b3 b4 : Nat) : PsiTableSyntaxData :=
  { table_id_extension := 256 * b0 + b1
    reserved_bits := b2 >>> 6
    version := (b2 >>> 1) &&& 0x1F
    current_next_indicator := bitFlag b2 0x1
    section_num := b3
    last_section_num := b4 }

/-- One PAT entry (src/psi.rs, `PatEntry`): program_num(16), reserved(3),
program_map_pid(13) over 4 bytes. -/
structure PatEntry where
  program_num : Nat
  reserved : Nat
  program_map_pid : Nat
deriving DecidableEq, Repr

/-- `PatEntry::from_bytes` over 4 bytes. -/
def PatEntry.fromBytes (b0 b1 b2 b3 : Nat) : PatEntry :=
  { program_num := 256 * b0 + b1
    reserved := b2 >>> 5
    program_map_pid := 256 * (b2 &&& 0x1F) + b3 }

/-- Descriptor (src/psi.rs, `Descriptor`): tag byte, length byte, opaque
bytes. -/
structure PsiDescriptor where
  tag : Nat
  data : List Nat
deriving DecidableEq, Repr

/-- `Descriptor::new_from_reader`. -/
def PsiDescriptor.new_from_reader (r : SliceReader) :
    Except MtsError (PsiDescriptor × SliceReader) :=
  match r.read_u8 with
  | .error e => .error e
  | .ok (tag, r1) =>
    match r1.read_u8 with
    | .error e => .error e
    | .ok (len, r2) =>
      match r2.read len with
      | .error e => .error e
      | .ok (data, r3) => .ok (⟨tag, data⟩, r3)

/-- A successful `Descriptor::new_from_reader` consumes at least the two
leading bytes, so the remaining slice strictly shrinks. -/
theorem PsiDescriptor.new_from_reader_shrinks {r : SliceReader} {d : PsiDescriptor}
    {r' : SliceReader} (h : PsiDescriptor.new_from_reader r = .ok (d, r')) :
    r'.slice.length + 2 ≤ r.slice.length := by
  unfold PsiDescriptor.new_from_reader at h
  split at h
  · simp at h
  · rename_i tag r1 h1
    split at h
    · simp at h
    · rename_i len r2 h2
      split at h
      · simp at h
      · rename_i data r3 h3
        simp at h
        obtain ⟨-, hr⟩ := h
        obtain ⟨ha1, hb1⟩ := SliceReader.read_u8_ok_len h1
        obtain ⟨ha2, hb2⟩ := SliceReader.read_u8_ok_len h2
        obtain ⟨ha3, hb3, -⟩ := SliceReader.read_ok_len h3
        subst hr
        omega

/-- Descriptor-reading loop (`while reader.remaining_len() > 0`), used by
`finish_pmt` for both program descriptors and per-stream descriptors. -/
def descriptorLoop (r : SliceReader) :
    Except MtsError (List PsiDescriptor × SliceReader) :=
  if h0 : r.slice.length = 0 then .ok ([], r)
  else
    match hd : PsiDescriptor.new_from_reader r with
    | .error e => .error e
    | .ok (d, r1) =>
      match descriptorLoop r1 with
      | .error e => .error e
      | .ok (ds, r2) => .ok (d :: ds, r2)
termination_by r.slice.length
decreasing_by
  have := PsiDescriptor.new_from_reader_shrinks hd
  omega

/-- PMT header (src/psi.rs, `PmtHeader`): reserved(3), pcr_pid(13),
reserved2(4), unused(2), program_info_length(10) over 4 bytes. -/
structure PmtHeader where
  reserved : Nat
  pcr_pid : Nat
  reserved2 : Nat
  program_info_length : Nat
deriving DecidableEq, Repr

/-- `PmtHeader::from_bytes` over 4 bytes. -/
def PmtHeader.fromBytes (b0 b1 b2 b3 : Nat) : PmtHeader :=
  { reserved := b0 >>> 5
    pcr_pid := 256 * (b0 &&& 0x1F) + b1
    reserved2 := b2 >>> 4
    program_info_length := 256 * (b2 &&& 0x3) + b3 }

/-- Elementary stream info header (src/psi.rs,
`ElementaryStreamInfoHeader`) over 5 bytes. -/
structure ElementaryStreamInfoHeader where
  stream_type : Nat
  reserved : Nat
  elementary_pid : Nat
  reserved2 : Nat
  es_info_length : Nat
deriving DecidableEq, Repr

/-- `ElementaryStreamInfoHeader::from_bytes` over 5 bytes. -/
def ElementaryStreamInfoHeader.fromBytes (b0 b1 b2 b3 b4 : Nat) :
    ElementaryStreamInfoHeader :=
  { stream_type := b0
    reserved := b1 >>> 5
    elementary_pid := 256 * (b1 &&& 0x1F) + b2
    reserved2 := b3 >>> 4
    es_info_length := 256 * (b3 &&& 0x3) + b4 }

/-- Elementary stream info (src/psi.rs, `ElementaryStreamInfo`). -/
structure ElementaryStreamInfo where
  header : ElementaryStreamInfoHeader
  es_descriptors : List PsiDescriptor
deriving DecidableEq, Repr

/-- Parsed PMT (src/psi.rs, `Pmt`). -/
structure Pmt where
  header : PmtHeader
  program_descriptors : List PsiDescriptor
  es_infos : List ElementaryStreamInfo
deriving DecidableEq, Repr

/-- One iteration of the elementary-stream loop of `finish_pmt`: a 5-byte
header then a bounded sub-view of descriptors. -/
def esInfoStep (r : SliceReader) :
    Except MtsError (ElementaryStreamInfo × SliceReader) :=
  match r.read_array_ref 5 with
  | .error e => .error e
  | .ok (hb, r1) =>
    let es_header := ElementaryStreamInfoHeader.fromBytes hb.headI hb.tail.headI
      hb.tail.tail.headI hb.tail.tail.tail.headI hb.tail.tail.tail.tail.headI
    match r1.new_sub_reader es_header.es_info_length with
    | .error e => .error e
    | .ok (es_reader, r2) =>
      match descriptorLoop es_reader with
      | .error e => .error e
      | .ok (ds, _) => .ok (⟨es_header, ds⟩, r2)

/-- A successful `esInfoStep` consumes at least its 5 header bytes. -/
theorem esInfoStep_shrinks {r : SliceReader} {v : ElementaryStreamInfo}
    {r' : SliceReader} (h : esInfoStep r = .ok (v, r')) :
    r'.slice.length + 5 ≤ r.slice.length := by
  unfold esInfoStep at h
  unfold SliceReader.read_array_ref at h
  split at h
  · simp at h
  · rename_i hb r1 h1
    dsimp only at h
    split at h
    · simp at h
    · rename_i es_reader r2 h2
      split at h
      · simp at h
      · rename_i ds rx h3
        simp at h
        obtain ⟨-, hr⟩ := h
        obtain ⟨ha1, hb1, -⟩ := SliceReader.read_ok_len h1
        obtain ⟨ha2, hb2, -⟩ := SliceReader.new_sub_reader_ok_len h2
        subst hr
        omega

/-- Elementary-stream loop of `finish_pmt`
(`while reader.remaining_len() > 0`). -/
def esInfoLoop (r : SliceReader) :
    Except MtsError (List ElementaryStreamInfo × SliceReader) :=
  if h0 : r.slice.length = 0 then .ok ([], r)
  else
    match hd : esInfoStep r with
    | .error e => .error e
    | .ok (v, r1) =>
      match esInfoLoop r1 with
      | .error e => .error e
      | .ok (vs, r2) => .ok (v :: vs, r2)
termination_by r.slice.length
decreasing_by
  have := esInfoStep_shrinks hd
  omega

/-- Table payload variants of a PSI section (src/psi.rs, `PsiData`). -/
inductive PsiData where
  | raw (data : List Nat)
  | pat (entries : List PatEntry)
  | pmt (v : Pmt)
deriving DecidableEq, Repr

/-- Parsed PSI section (src/psi.rs, `Psi`). -/
structure Psi where
  header : PsiHeader
  tableSyntaxData : Option PsiTableSyntaxData
  data : PsiData
deriving DecidableEq, Repr

/-- In-progress PSI section (src/psi.rs, `PsiBuilder`); `hasher` is the
running CRC-32/MPEG-2 digest state (always present: the source stores
`Some(hasher)` at construction and takes it exactly once in `finish`). -/
structure PsiBuilder where
  header : PsiHeader
  tableSyntaxData : Option PsiTableSyntaxData
  data : List Nat
  hasher : Nat
deriving DecidableEq, Repr

/-- Loop of `finish_pat` (src/psi.rs lines 150-155):
`while reader.remaining_len() >= 4` read a `PatEntry` bitfield, insert its
`program_map_pid` into `known_pmt_pids` and push the entry.  The reads
cannot fail under the guard, so the loop is recursion over 4-byte chunks
of the section body; leftover 1-3 bytes are never read. -/
def patLoop (known : Nat → Bool) (acc : List PatEntry) :
    List Nat → List PatEntry × (Nat → Bool)
  | b0 :: b1 :: b2 :: b3 :: rest =>
    let entry := PatEntry.fromBytes b0 b1 b2 b3
    patLoop (fun q => if q = entry.program_map_pid then true else known q)
      (acc ++ [entry]) rest
  | _ => (acc, known)

/-- Body interpretation of `finish_pmt` (src/psi.rs lines 159-186) over
the truncated section body: PMT header, a bounded sub-view of program
descriptors, then elementary-stream entries to the end. -/
def pmtParse (data : List Nat) : Except MtsError Pmt :=
  let r : SliceReader := ⟨data, 0⟩
  match r.read_array_ref 4 with
  | .error e => .error e
  | .ok (hb, r1) =>
    let header := PmtHeader.fromBytes hb.headI hb.tail.headI hb.tail.tail.headI
      hb.tail.tail.tail.headI
    match r1.new_sub_reader header.program_info_length with
    | .error e => .error e
    | .ok (info_reader, r2) =>
      match descriptorLoop info_reader with
      | .error e => .error e
      | .ok (program_descriptors, _) =>
        match esInfoLoop r2 with
        | .error e => .error e
        | .ok (es_infos, _) => .ok ⟨header, program_descriptors, es_infos⟩

/-- PES header (src/pes.rs, `PesHeader`): start_code(24), stream_id(8),
packet_length(16) over 6 bytes. -/
structure PesHeader where
  start_code : Nat
  stream_id : Nat
  packet_length : Nat
deriving DecidableEq, Repr

/-- `PesHeader::from_bytes` over 6 bytes. -/
def PesHeader.fromBytes (b0 b1 b2 b3 b4 b5 : Nat) : PesHeader :=
  { start_code := 65536 * b0 + 256 * b1 + b2
    stream_id := b3
    packet_length := 256 * b4 + b5 }

/-- PES optional header (src/pes.rs, `PesOptionalHeader`) over 3 bytes. -/
structure PesOptionalHeader where
  marker_bits : Nat
  scrambling_control : Nat
  priority : Bool
  data_alignment_indicator : Bool
  copyright : Bool
  original : Bool
  has_pts : Bool
  has_dts : Bool
  escr : Bool
  es_rate : Bool
  dsm_trick_mode : Bool
  has_additional_copy_info : Bool
  has_crc : Bool
  has_extension : Bool
  additional_header_length : Nat
deriving DecidableEq, Repr

/-- `PesOptionalHeader::from_bytes` over 3 bytes. -/
def PesOptionalHeader.fromBytes (b0 b1 b2 : Nat) : PesOptionalHeader :=
  { marker_bits := b0 >>> 6
    scrambling_control := (b0 >>> 4) &&& 0x3
    priority := bitFlag b0 0x8
    data_alignment_indicator := bitFlag b0 0x4
    copyright := bitFlag b0 0x2
    original := bitFlag b0 0x1
    has_pts := bitFlag b1 0x80
    has_dts := bitFlag b1 0x40
    escr := bitFlag b1 0x20
    es_rate := bitFlag b1 0x10
    dsm_trick_mode := bitFlag b1 0x8
    has_additional_copy_info := bitFlag b1 0x4
    has_crc := bitFlag b1 0x2
    has_extension := bitFlag b1 0x1
    additional_header_length := b2 }

/-- `parse_timestamp` (src/lib.rs lines 272-279): 33-bit timestamp packed
into 5 bytes. -/
def parse_timestamp (b : List Nat) : Nat :=
  ((b.headI &&& 0x0E) <<< 29) ||| (b.tail.headI <<< 22) |||
    ((b.tail.tail.headI &&& 0xFE) <<< 14) ||| (b.tail.tail.tail.headI <<< 7) |||
    ((b.tail.tail.tail.tail.headI &&& 0xFE) >>> 1)

/-- The PES-unit payload object (src/pes.rs `dyn PesUnitObject`),
instantiated for `DefaultBdavAppDetails`: either the plain byte
accumulator `RawPesData` or a BDAV `PgSegmentData`. -/
inductive PesUnitData where
  | rawPes (data : List Nat)
  | pg (seg : PgSegmentData)

/-- Parsed PES unit (src/pes.rs, `Pes`). -/
structure Pes where
  header : PesHeader
  optional_header : Option PesOptionalHeader
  pts : Option Nat
  dts : Option Nat
  data : PesUnitData

/-- Payload-unit sum (src/payload_unit.rs, `PayloadUnit`). -/
inductive PayloadUnit where
  | psi (b : PsiBuilder)
  | pes (p : Pes)

/-- Pending unit with its remaining byte budget (src/payload_unit.rs,
`PayloadUnitBuilder`). -/
structure PayloadUnitBuilder where
  unit : PayloadUnit
  remaining : Nat

/-- Parser state (src/lib.rs, `MpegTsParser`): the PID-keyed pending-unit
map, the known-PMT-PID set and the BDAV application storage
(`app_parser_storage`, referenced by `PgSegmentData::finish`). -/
structure ParserState where
  pending_payload_units : Nat → Option PayloadUnitBuilder
  known_pmt_pids : Nat → Bool
  app_parser_storage : BdavParserStorage

/-- Parsed payload classification (src/lib.rs, `Payload`).

The `unknown` constructor gives meaning to the expression
`Payload::Unknown` constructed at src/payload_unit.rs line 98: the
`Payload` enum declared in src/lib.rs has no such variant (its variants
are exactly the other five below), so the crate as given does not
type-check; the extra constructor models the constructor the code names. -/
inductive Payload where
  | raw (r : SliceReader)
  | psiPending
  | psi (p : Psi)
  | pesPending
  | pes (p : Pes)
  | unknown

/-- `MpegTsParser::default()`: empty maps. -/
def ParserState.initial : ParserState :=
  ⟨fun _ => none, fun _ => false, BdavParserStorage.empty⟩

/-- `PesUnitObject::extend_from_slice` for the instantiated payload data
(append for `RawPesData`; `PgSegmentData` panics unless raw). -/
def PesUnitData.extend_from_slice (d : PesUnitData) (bytes : List Nat) :
    Option PesUnitData :=
  match d with
  | .rawPes data => some (.rawPes (data ++ bytes))
  | .pg seg => (seg.extend_from_slice bytes).map .pg

/-- `PayloadUnitObject::extend_from_slice` dispatch
(src/payload_unit.rs `enum_dispatch`). -/
def PayloadUnit.extend_from_slice (u : PayloadUnit) (bytes : List Nat) :
    Option PayloadUnit :=
  match u with
  | .psi b => some (.psi { b with data := b.data ++ bytes })
  | .pes p => (p.data.extend_from_slice bytes).map (fun d => .pes { p with data := d })

/-- `PayloadUnitObject::pending` dispatch. -/
def PayloadUnit.pendingPayload : PayloadUnit → Payload
  | .psi _ => .psiPending
  | .pes _ => .pesPending

/-- `PayloadUnitBuilder::append` (src/payload_unit.rs lines 34-44): feed
`min(reader.remaining_len(), remaining)` bytes to the unit, decrease the
budget, advance the reader; returns whether the budget reached zero.  The
two `?`-reads cannot fail (`read_to_end` always succeeds and
`read(self.remaining)` runs only when `remaining < remaining_len`), so no
error case remains; `none` is the extend panic of a non-raw
`PgSegmentData`. -/
def PayloadUnitBuilder.append (b : PayloadUnitBuilder) (r : SliceReader) :
    Option (Bool × PayloadUnitBuilder × SliceReader) :=
  if r.remaining_len ≤ b.remaining then
    match b.unit.extend_from_slice r.slice with
    | none => none
    | some u =>
      some ((b.remaining - r.remaining_len == 0),
        ⟨u, b.remaining - r.remaining_len⟩,
        ⟨[], r.location + r.slice.length⟩)
  else
    match b.unit.extend_from_slice (r.slice.take b.remaining) with
    | none => none
    | some u =>
      some (true, ⟨u, 0⟩, ⟨r.slice.drop b.remaining, r.location + b.remaining⟩)

/-- `PsiBuilder::finish` (src/psi.rs lines 194-221): CRC check over all
but the trailing 4 body bytes, then dispatch on table type.

`self.data.len() - 4` underflows when fewer than 4 bytes were collected:
debug builds panic on the subtraction and release builds wrap and then
panic indexing `self.data[..len_minus_crc]`, so either way the call
panics (`none`).  `known_pmt_pids.clear()` followed by the inserting loop
is the loop started from the empty set. -/
def PsiBuilder.finish (b : PsiBuilder) (pid : Nat) (st : ParserState) :
    Option ((Except MtsError Payload) × ParserState) :=
  if b.data.length < 4 then none
  else
    let len_minus_crc := b.data.length - 4
    let actual_hash := crcUpdate b.hasher (b.data.take len_minus_crc)
    let expected_hash := beValue (b.data.drop len_minus_crc)
    if expected_hash ≠ actual_hash then
      some (.error ⟨0, .psiCrcMismatch⟩, st)
    else
      let body := b.data.take len_minus_crc
      if b.header.private_bit then
        some (.ok (.psi ⟨b.header, b.tableSyntaxData, .raw body⟩), st)
      else if pid = 0 ∧ b.header.table_id = 0 then
        let res := patLoop (fun _ => false) [] body
        some (.ok (.psi ⟨b.header, b.tableSyntaxData, .pat res.1⟩),
          { st with known_pmt_pids := res.2 })
      else if st.known_pmt_pids pid then
        match pmtParse body with
        | .error e => some (.error e, st)
        | .ok v => some (.ok (.psi ⟨b.header, b.tableSyntaxData, .pmt v⟩), st)
      else
        some (.ok (.psi ⟨b.header, b.tableSyntaxData, .raw body⟩), st)

/-- `PesUnitObject::finish` for the instantiated payload data: a raw
accumulator finishes trivially; `PgSegmentData::finish` parses the
accumulated segment against the shared storage. -/
def PesUnitData.finish (d : PesUnitData) (st : ParserState) :
    Option ((Except MtsError PesUnitData) × ParserState) :=
  match d with
  | .rawPes data => some (.ok (.rawPes data), st)
  | .pg seg =>
    match seg.finish st.app_parser_storage with
    | none => none
    | some (.error e, storage) =>
      some (.error e, { st with app_parser_storage := storage })
    | some (.ok seg', storage) =>
      some (.ok (.pg seg'), { st with app_parser_storage := storage })

/-- `PayloadUnitObject::finish` dispatch (`Pes::finish` finishes its data
object and wraps itself in `Payload::Pes`). -/
def PayloadUnit.finish (u : PayloadUnit) (pid : Nat) (st : ParserState) :
    Option ((Except MtsError Payload) × ParserState) :=
  match u with
  | .psi b => b.finish pid st
  | .pes p =>
    match p.data.finish st with
    | none => none
    | some (.error e, st') => some (.error e, st')
    | some (.ok d', st') => some (.ok (.pes { p with data := d' }), st')

/-- `PayloadUnitBuilder::finish` with its `assert_eq!(self.remaining, 0)`
(an `assert!`, active in release builds too: `none` when violated). -/
def PayloadUnitBuilder.finish (b : PayloadUnitBuilder) (pid : Nat) (st : ParserState) :
    Option ((Except MtsError Payload) × ParserState) :=
  if b.remaining ≠ 0 then none
  else b.unit.finish pid st

/-- `MpegTsParser::start_payload_unit` (src/payload_unit.rs lines 57-75). -/
def ParserState.start_payload_unit (st : ParserState) (obj : PayloadUnit)
    (length : Nat) (pid : Nat) (r : SliceReader) :
    Option ((Except MtsError Payload) × ParserState) :=
  match PayloadUnitBuilder.append ⟨obj, length⟩ r with
  | none => none
  | some (done, builder, _) =>
    if done then builder.finish pid st
    else
      some (.ok builder.unit.pendingPayload,
        { st with pending_payload_units := fun q =>
            if q = pid then some builder else st.pending_payload_units q })

/-- `MpegTsParser::continue_payload_unit` (src/payload_unit.rs lines
77-101): append to the pending entry for the PID; on completion the entry
is removed from the map before its `finish` runs.  A continuation on a
PID with no entry logs a warning and returns `Ok(Payload::Unknown)` (see
the note on `Payload.unknown`). -/
def ParserState.continue_payload_unit (st : ParserState) (pid : Nat)
    (r : SliceReader) : Option ((Except MtsError Payload) × ParserState) :=
  match st.pending_payload_units pid with
  | some pes_state =>
    match pes_state.append r with
    | none => none
    | some (done, builder, _) =>
      if done then
        let st1 : ParserState :=
          { st with pending_payload_units := fun q =>
              if q = pid then none else st.pending_payload_units q }
        builder.finish pid st1
      else
        some (.ok builder.unit.pendingPayload,
          { st with pending_payload_units := fun q =>
              if q = pid then some builder else st.pending_payload_units q })
  | none => some (.ok .unknown, st)

/-- `MpegTsParser::start_psi` (src/psi.rs lines 229-280): pointer field,
3-byte header fed to a fresh CRC digest; a zero section length finishes an
empty builder immediately; otherwise the 5-byte table syntax is read and
fed, and `table_length = (section_length - 5) as usize` must be at least 4.

The subtraction is on a `u16`: for `section_length` in 1..=4 it underflows
- debug builds panic, release builds wrap to 65532..=65535 (modelled, as
the wrapped value flows onward into the pending-unit length). -/
def ParserState.start_psi (st : ParserState) (pid : Nat) (r : SliceReader) :
    Option ((Except MtsError Payload) × ParserState) :=
  if r.remaining_len < 1 then some (.error (r.make_error .badPsiHeader), st)
  else
  match r.read 1 with
  | .error e => some (.error e, st)
  | .ok (pf, r1) =>
  let pointer_field := pf.headI
  if r1.remaining_len < pointer_field then
    some (.error (r1.make_error .badPsiHeader), st)
  else
  match r1.skip pointer_field with
  | .error e => some (.error e, st)
  | .ok r2 =>
  if r2.remaining_len < 3 then some (.error (r2.make_error .badPsiHeader), st)
  else
  match r2.read_array_ref 3 with
  | .error e => some (.error e, st)
  | .ok (hb, r3) =>
  let hasher := crcUpdate crcInit hb
  let psi_header := PsiHeader.fromBytes hb.headI hb.tail.headI hb.tail.tail.headI
  let section_length := psi_header.section_length
  if section_length > 0 then
    if r3.remaining_len < 5 then some (.error (r3.make_error .badPsiHeader), st)
    else
    match r3.read_array_ref 5 with
    | .error e => some (.error e, st)
    | .ok (sb, r4) =>
    let hasher2 := crcUpdate hasher sb
    let psi_table_syntax := PsiTableSyntaxData.fromBytes sb.headI sb.tail.headI
      sb.tail.tail.headI sb.tail.tail.tail.headI sb.tail.tail.tail.tail.headI
    let table_length := (section_length + 65536 - 5) % 65536
    if table_length < 4 then some (.error (r4.make_error .badPsiHeader), st)
    else
      st.start_payload_unit (.psi ⟨psi_header, some psi_table_syntax, [], hasher2⟩)
        table_length pid r4
  else
    PsiBuilder.finish ⟨psi_header, none, [], hasher⟩ pid st

/-- `DefaultBdavAppDetails::new_pes_unit_data` (src/bdav/mod.rs lines
107-114): the PG PIDs get a raw `PgSegmentData`; other PIDs get none and
the caller substitutes `RawPesData`. -/
def isPgPid (pid : Nat) : Bool :=
  (0x1200 ≤ pid && pid ≤ 0x121f) || (0x1400 ≤ pid && pid ≤ 0x141f) || pid == 0x1800

/-- Wrapping `usize` subtraction of release builds. -/
def usizeWrapSub (a b : Nat) : Nat :=
  (a + 18446744073709551616 - b) % 18446744073709551616

/-- `MpegTsParser::start_pes` (src/pes.rs lines 129-187). -/
def ParserState.start_pes (st : ParserState) (pid : Nat) (r : SliceReader) :
    Option ((Except MtsError Payload) × ParserState) :=
  match r.read_array_ref 6 with
  | .error e => some (.error e, st)
  | .ok (hb, r1) =>
  let header := PesHeader.fromBytes hb.headI hb.tail.headI hb.tail.tail.headI
    hb.tail.tail.tail.headI hb.tail.tail.tail.tail.headI
    hb.tail.tail.tail.tail.tail.headI
  let pes_length := header.packet_length
  if pes_length ≥ 3 ∧ header.stream_id ≠ 0xBF then
    match r1.read_array_ref 3 with
    | .error e => some (.error e, st)
    | .ok (ob, r2) =>
    let pes_optional := PesOptionalHeader.fromBytes ob.headI ob.tail.headI
      ob.tail.tail.headI
    let additional_length := pes_optional.additional_header_length
    let optional_length := 3 + additional_length
    match r2.new_sub_reader additional_length with
    | .error e => some (.error e, st)
    | .ok (o_reader, r3) =>
    match (if pes_optional.has_pts then
        if o_reader.remaining_len < 5 then
          .error (o_reader.make_error .badPesHeader)
        else
          match o_reader.read_array_ref 5 with
          | .error e => .error e
          | .ok (tb, o1) => .ok (some (parse_timestamp tb), o1)
      else .ok (none, o_reader) :
      Except MtsError (Option Nat × SliceReader)) with
    | .error e => some (.error e, st)
    | .ok (pts, o2) =>
    match (if pes_optional.has_dts then
        if o2.remaining_len < 5 then
          .error (o2.make_error .badPesHeader)
        else
          match o2.read_array_ref 5 with
          | .error e => .error e
          | .ok (tb, o3) => .ok (some (parse_timestamp tb), o3)
      else .ok (none, o2) :
      Except MtsError (Option Nat × SliceReader)) with
    | .error e => some (.error e, st)
    | .ok (dts, _) =>
    let unit_length := usizeWrapSub pes_length optional_length
    let data : PesUnitData :=
      if isPgPid pid then .pg (.raw []) else .rawPes []
    st.start_payload_unit (.pes ⟨header, some pes_optional, pts, dts, data⟩)
      unit_length pid r3
  else
    let data : PesUnitData :=
      if isPgPid pid then .pg (.raw []) else .rawPes []
    st.start_payload_unit (.pes ⟨header, none, none, none, data⟩)
      pes_length pid r1

/-- `is_pes` (src/lib.rs lines 268-270). -/
def is_pes (b : List Nat) : Bool :=
  b.headI == 0 && b.tail.headI == 0 && b.tail.tail.headI == 1

/-- `MpegTsParser::read_payload` (src/lib.rs lines 327-356): on PUSI,
discard any unfinished unit for the PID, then dispatch - PSI for PID 0 or
known PMT PIDs, PES when at least 6 bytes remain and they open with the
00 00 01 start code, raw otherwise; without PUSI, continue the pending
unit. -/
def ParserState.read_payload (st : ParserState) (pusi : Bool) (pid : Nat)
    (r : SliceReader) : Option ((Except MtsError Payload) × ParserState) :=
  if pusi then
    let st1 : ParserState :=
      if (st.pending_payload_units pid).isSome then
        { st with pending_payload_units := fun q =>
            if q = pid then none else st.pending_payload_units q }
      else st
    if pid = 0 ∨ st1.known_pmt_pids pid then st1.start_psi pid r
    else if 6 ≤ r.remaining_len then
      match r.peek_array_ref 3 with
      | .error e => some (.error e, st1)
      | .ok b3 =>
        if is_pes b3 then st1.start_pes pid r
        else some (.ok (.raw r), st1)
    else some (.ok (.raw r), st1)
  else st.continue_payload_unit pid r

/-- Removal of a PID's pending entry, the effect of the PUSI discard step
in `read_payload` (and of the completion removal in
`continue_payload_unit`). -/
def ParserState.erasePending (st : ParserState) (pid : Nat) : ParserState :=
  { st with pending_payload_units := fun q =>
      if q = pid then none else st.pending_payload_units q }

/-- Big-endian byte expansion of a 32-bit value (used to build concrete
inputs whose trailing CRC matches). -/
def u32BeBytes (v : Nat) : List Nat :=
  [(v >>> 24) &&& 0xFF, (v >>> 16) &&& 0xFF, (v >>> 8) &&& 0xFF, v &&& 0xFF]

/-- Projection of a `PgsObject::parse` outcome to the parsed object data
bytes (`None` when parsing failed or the object is still pending). -/
def objParseData (x : (Except MtsError (PgsObject × SliceReader)) × BdavParserStorage) :
    Option PgsObjectData :=
  match x.1 with
  | .ok (o, _) => o.data
  | .error _ => none

/-- The 4-byte-chunk decoding of a PAT body: one `PatEntry` per full
4-byte group, leftover bytes ignored (the `remaining_len() >= 4` guard). -/
def patEntriesOf : List Nat → List PatEntry
  | b0 :: b1 :: b2 :: b3 :: rest => PatEntry.fromBytes b0 b1 b2 b3 :: patEntriesOf rest
  | _ => []

/-- Concrete PAT body for the witness below: two entries, program 0 ->
PID 0x100 and program 1 -> PID 0x101. -/
def patWitnessBody : List Nat := [0, 0, 0xE1, 0, 0, 1, 0xE1, 1]

/-- The witness body followed by its correct CRC-32/MPEG-2 bytes. -/
def patWitnessData : List Nat :=
  patWitnessBody ++ u32BeBytes (crcUpdate crcInit patWitnessBody)

/-- A completed PAT builder holding the witness section. -/
def patWitnessBuilder : PsiBuilder :=
  ⟨PsiHeader.fromBytes 0 0xB0 17, none, patWitnessData, crcInit⟩

/-- Wire bytes of one PG object fragment: object id (2 bytes), version,
sequence-descriptor byte, then the fragment payload. -/
def objFragBytes (idHi idLo ver seqByte : Nat) (payload : List Nat) : List Nat :=
  idHi :: idLo :: ver :: seqByte :: payload

/-- Delivery of a list of middle `(0,0)` fragments of one PG object, each
through `PgsObject::parse` with the shared storage threaded. -/
def deliverObjMiddles (idHi idLo ver : Nat) :
    List (List Nat) → BdavParserStorage →
    (Except MtsError (List PgsObject)) × BdavParserStorage
  | [], storage => (.ok [], storage)
  | c :: cs, storage =>
    match PgsObject.parse ⟨objFragBytes idHi idLo ver 0x00 c, 0⟩ storage with
    | (.error e, st) => (.error e, st)
    | (.ok (o, _), st) =>
      match deliverObjMiddles idHi idLo ver cs st with
      | (.error e, st') => (.error e, st')
      | (.ok os, st') => (.ok (o :: os), st')

/-- Delivery of a complete fragment sequence `(1,0), (0,0)*, (0,1)` of one
PG object, returning the object parsed from the last fragment and the
final shared storage. -/
def deliverObjFragments (idHi idLo ver LHi LMid LLo : Nat)
    (c0 : List Nat) (ms : List (List Nat)) (cl : List Nat)
    (s0 : BdavParserStorage) : (Except MtsError PgsObject) × BdavParserStorage :=
  match PgsObject.parse ⟨objFragBytes idHi idLo ver 0x80
      (LHi :: LMid :: LLo :: c0), 0⟩ s0 with
  | (.error e, st) => (.error e, st)
  | (.ok _, s1) =>
    match deliverObjMiddles idHi idLo ver ms s1 with
    | (.error e, st) => (.error e, st)
    | (.ok _, s2) =>
      match PgsObject.parse ⟨objFragBytes idHi idLo ver 0x40 cl, 0⟩ s2 with
      | (.error e, st) => (.error e, st)
      | (.ok (o, _), st) => (.ok o, st)

/-- `patLoop` accumulates exactly the chunk decoding and inserts every
entry's `program_map_pid` - with no condition on `program_num`. -/
theorem patLoop_spec (known : Nat → Bool) (acc : List PatEntry) (body : List Nat) :
    (patLoop known acc body).1 = acc ++ patEntriesOf body ∧
    (∀ q, (patLoop known acc body).2 q = true ↔
      (known q = true ∨ ∃ e ∈ patEntriesOf body, e.program_map_pid = q)) := by
  suffices h : ∀ (n : Nat) (body : List Nat), body.length ≤ n →
      ∀ (known : Nat → Bool) (acc : List PatEntry),
      (patLoop known acc body).1 = acc ++ patEntriesOf body ∧
      (∀ q, (patLoop known acc body).2 q = true ↔
        (known q = true ∨ ∃ e ∈ patEntriesOf body, e.program_map_pid = q)) by
    exact h body.length body le_rfl known acc
  intro n
  induction n with
  | zero =>
    intro body hb known acc
    have hbody : body = [] := List.eq_nil_of_length_eq_zero (by omega)
    subst hbody
    simp [patLoop, patEntriesOf]
  | succ n ih =>
    intro body hb known acc
    match body with
    | [] => simp [patLoop, patEntriesOf]
    | [a] => simp [patLoop, patEntriesOf]
    | [a, b] => simp [patLoop, patEntriesOf]
    | [a, b, c] => simp [patLoop, patEntriesOf]
    | b0 :: b1 :: b2 :: b3 :: rest =>
      have hr : rest.length ≤ n := by
        simp [List.length_cons] at hb
        omega
      obtain ⟨ih1, ih2⟩ := ih rest hr
        (fun q => if q = (PatEntry.fromBytes b0 b1 b2 b3).program_map_pid then true
          else known q)
        (acc ++ [PatEntry.fromBytes b0 b1 b2 b3])
      constructor
      · rw [patLoop, ih1]
        simp [patEntriesOf]
      · intro q
        rw [patLoop, ih2 q]
        simp only [patEntriesOf, List.mem_cons]
        constructor
        · rintro (hq | he)
          · by_cases hqe : q = (PatEntry.fromBytes b0 b1 b2 b3).program_map_pid
            · exact Or.inr ⟨PatEntry.fromBytes b0 b1 b2 b3, Or.inl rfl, hqe.symm⟩
            · simp [hqe] at hq
              exact Or.inl hq
          · obtain ⟨e, he1, he2⟩ := he
            exact Or.inr ⟨e, Or.inr he1, he2⟩
        · rintro (hq | he)
          · by_cases hqe : q = (PatEntry.fromBytes b0 b1 b2 b3).program_map_pid
            · left
              simp [hqe]
            · left
              simp [hqe]
              exact hq
          · obtain ⟨e, he1, he2⟩ := he
            rcases he1 with he1 | he1
            · left
              subst he1
              simp [← he2]
            · right
              exact ⟨e, he1, he2⟩

set_option maxRecDepth 16384 in
/-- Counterexample for CLAIM C1 - a PAT whose single entry has
`program_num == 0` (body `00 00 E1 00`, so `program_map_pid = 0x100`)
finishes successfully and `0x100` IS inserted into `known_pmt_pids`:
`finish_pat` (src/psi.rs line 153) inserts every entry's PID
unconditionally, with no `program_num != 0` test. -/
theorem finish_pat_inserts_program_zero_pid :
    ((PsiBuilder.finish
        ⟨PsiHeader.fromBytes 0 0xB0 13, some (PsiTableSyntaxData.fromBytes 0 1 0xC1 0 0),
          [0, 0, 0xE1, 0] ++ u32BeBytes (crcUpdate crcInit [0, 0, 0xE1, 0]), crcInit⟩
        0 ParserState.initial).map Prod.fst) =
      some (.ok (.psi ⟨PsiHeader.fromBytes 0 0xB0 13,
        some (PsiTableSyntaxData.fromBytes 0 1 0xC1 0 0), .pat [⟨0, 7, 0x100⟩]⟩)) ∧
    ((PsiBuilder.finish
        ⟨PsiHeader.fromBytes 0 0xB0 13, some (PsiTableSyntaxData.fromBytes 0 1 0xC1 0 0),
          [0, 0, 0xE1, 0] ++ u32BeBytes (crcUpdate crcInit [0, 0, 0xE1, 0]), crcInit⟩
        0 ParserState.initial).map (fun p => p.2.known_pmt_pids 0x100)) =
      some true := by
  constructor <;> rfl

/-- CLAIM C1 (amended) - When a completed PSI section on PID 0 with
table_id 0 (a PAT) finishes successfully, the parser clears
`known_pmt_pids` and then, for EVERY 4-byte entry
`{program_num, program_map_pid}` of the body, adds `program_map_pid` to
`known_pmt_pids` unconditionally - entries with `program_num == 0`
contribute their PMT PID too (amended: the source has no
`program_num != 0` test).  All entries are recorded in the returned Pat
list; the pending map and BDAV storage are untouched. -/
theorem finish_pat_known_pids_characterization (b : PsiBuilder) (st : ParserState)
    (hpriv : b.header.private_bit = false)
    (htid : b.header.table_id = 0)
    (hlen : 4 ≤ b.data.length)
    (hcrc : beValue (b.data.drop (b.data.length - 4)) =
      crcUpdate b.hasher (b.data.take (b.data.length - 4))) :
    ∃ st', b.finish 0 st =
      some (.ok (.psi ⟨b.header, b.tableSyntaxData,
        .pat (patEntriesOf (b.data.take (b.data.length - 4)))⟩), st') ∧
      (∀ q, st'.known_pmt_pids q = true ↔
        ∃ e ∈ patEntriesOf (b.data.take (b.data.length - 4)),
          e.program_map_pid = q) ∧
      st'.pending_payload_units = st.pending_payload_units ∧
      st'.app_parser_storage = st.app_parser_storage := by
  unfold PsiBuilder.finish
  rw [if_neg (by omega)]
  dsimp only
  rw [if_neg (fun hne => hne hcrc)]
  rw [if_neg (by simp [hpriv])]
  rw [if_pos ⟨rfl, htid⟩]
  obtain ⟨h1, h2⟩ := patLoop_spec (fun _ => false) [] (b.data.take (b.data.length - 4))
  have h1' : (patLoop (fun _ => false) [] (b.data.take (b.data.length - 4))).1 =
      patEntriesOf (b.data.take (b.data.length - 4)) := by
    rw [h1]
    simp
  refine ⟨⟨st.pending_payload_units,
    (patLoop (fun _ => false) [] (b.data.take (b.data.length - 4))).2,
    st.app_parser_storage⟩, ?_, ?_, rfl, rfl⟩
  · rw [h1']
  · intro q
    rw [h2 q]
    simp

set_option maxRecDepth 32768 in
/-- Witness for `finish_pat_known_pids_characterization` at the concrete
two-entry PAT. -/
theorem finish_pat_known_pids_characterization_witness :
    (patWitnessBuilder.header.private_bit = false ∧
      patWitnessBuilder.header.table_id = 0 ∧
      4 ≤ patWitnessBuilder.data.length ∧
      beValue (patWitnessBuilder.data.drop (patWitnessBuilder.data.length - 4)) =
        crcUpdate patWitnessBuilder.hasher
          (patWitnessBuilder.data.take (patWitnessBuilder.data.length - 4))) ∧
    (∃ st', patWitnessBuilder.finish 0 ParserState.initial =
      some (.ok (.psi ⟨patWitnessBuilder.header, patWitnessBuilder.tableSyntaxData,
        .pat (patEntriesOf (patWitnessBuilder.data.take
          (patWitnessBuilder.data.length - 4)))⟩), st') ∧
      (∀ q, st'.known_pmt_pids q = true ↔
        ∃ e ∈ patEntriesOf (patWitnessBuilder.data.take
          (patWitnessBuilder.data.length - 4)), e.program_map_pid = q) ∧
      st'.pending_payload_units = ParserState.initial.pending_payload_units ∧
      st'.app_parser_storage = ParserState.initial.app_parser_storage) :=
  ⟨⟨rfl, rfl, by decide, by decide⟩,
    finish_pat_known_pids_characterization patWitnessBuilder
      ParserState.initial rfl rfl (by decide) (by decide)⟩

/-- CLAIM C2 - The claim says a packet with payload, PUSI clear and no
pending entry for its PID yields `Payload::Raw` over the remaining bytes.
The code (src/payload_unit.rs line 98) instead constructs
`Payload::Unknown` - a variant that does not exist in the `Payload` enum
of src/lib.rs, so the crate does not type-check; the enum's documented
variant for unhandled payloads is `Raw`.  Evaluating the embedding (which
gives that expression a constructor) at such a packet produces
`Payload.unknown`, not `Payload.raw`. -/
theorem continue_unit_unknown_pid_returns_unknown_payload :
    ParserState.read_payload ParserState.initial false 0x100 ⟨[0x12, 0x34], 0⟩ =
      some (.ok .unknown, ParserState.initial) := by
  rfl

/-- Discarding an absent entry changes nothing, so `read_payload`'s
conditional discard always equals `erasePending`. -/
theorem discard_eq_erasePending (st : ParserState) (pid : Nat) :
    (if (st.pending_payload_units pid).isSome then
      ({ st with pending_payload_units := fun q =>
          if q = pid then none else st.pending_payload_units q } : ParserState)
    else st) = st.erasePending pid := by
  by_cases h : (st.pending_payload_units pid).isSome
  · simp [h, ParserState.erasePending]
  · simp only [h, Bool.false_eq_true, if_false]
    have hnone : st.pending_payload_units pid = none :=
      Option.not_isSome_iff_eq_none.mp (by simpa using h)
    unfold ParserState.erasePending
    cases st with
    | mk p k a =>
      simp only [ParserState.mk.injEq, and_true]
      funext q
      by_cases hq : q = pid
      · subst hq
        simpa using hnone
      · simp [hq]

/-- The three-byte PES start-code test holds exactly for `00 00 01`. -/
theorem is_pes_take3 {l : List Nat} (h : 3 ≤ l.length) :
    is_pes (l.take 3) = true ↔ l.take 3 = [0, 0, 1] := by
  match l, h with
  | a :: b :: c :: rest, _ =>
    simp [is_pes, Bool.and_eq_true, beq_iff_eq, List.take]
    tauto

/-- CLAIM C3 - For a packet with payload and PUSI set on PID `p` (after
the unconditional discard of any pending unit on `p`): if `p = 0` or `p`
is a known PMT PID the payload is processed as a PSI start; otherwise, if
at least 6 payload bytes remain and the first three are `00 00 01` it is
processed as a PES start; otherwise the parser returns `Payload::Raw`
over the remaining payload bytes. -/
theorem read_payload_pusi_dispatch (st : ParserState) (pid : Nat) (r : SliceReader) :
    (pid = 0 ∨ st.known_pmt_pids pid = true →
      st.read_payload true pid r = (st.erasePending pid).start_psi pid r) ∧
    (¬(pid = 0 ∨ st.known_pmt_pids pid = true) → 6 ≤ r.remaining_len →
      r.slice.take 3 = [0, 0, 1] →
      st.read_payload true pid r = (st.erasePending pid).start_pes pid r) ∧
    (¬(pid = 0 ∨ st.known_pmt_pids pid = true) →
      (r.remaining_len < 6 ∨ r.slice.take 3 ≠ [0, 0, 1]) →
      st.read_payload true pid r = some (.ok (.raw r), st.erasePending pid)) := by
  have hknown : (st.erasePending pid).known_pmt_pids = st.known_pmt_pids := rfl
  refine ⟨?_, ?_, ?_⟩
  · intro h
    unfold ParserState.read_payload
    rw [discard_eq_erasePending]
    simp only [if_pos trivial]
    rw [if_pos (by rwa [hknown])]
  · intro h h6 h3
    unfold ParserState.read_payload
    rw [discard_eq_erasePending]
    simp only [if_pos trivial]
    rw [if_neg (by rwa [hknown]), if_pos h6]
    have hpk : r.peek_array_ref 3 = .ok (r.slice.take 3) := by
      unfold SliceReader.peek_array_ref SliceReader.peek
      rw [if_neg]
      unfold SliceReader.remaining_len at h6
      omega
    rw [hpk]
    have : is_pes (r.slice.take 3) = true := by
      rw [is_pes_take3 (by unfold SliceReader.remaining_len at h6; omega)]
      exact h3
    simp [this]
  · intro h hc
    unfold ParserState.read_payload
    rw [discard_eq_erasePending]
    simp only [if_pos trivial]
    rw [if_neg (by rwa [hknown])]
    rcases hc with h6 | h3
    · rw [if_neg (by omega)]
    · by_cases h6 : 6 ≤ r.remaining_len
      · rw [if_pos h6]
        have hpk : r.peek_array_ref 3 = .ok (r.slice.take 3) := by
          unfold SliceReader.peek_array_ref SliceReader.peek
          rw [if_neg]
          unfold SliceReader.remaining_len at h6
          omega
        rw [hpk]
        have : is_pes (r.slice.take 3) = false := by
          rw [← Bool.not_eq_true]
          rw [is_pes_take3 (by unfold SliceReader.remaining_len at h6; omega)]
          exact h3
        simp only [this, Bool.false_eq_true, if_false]
      · rw [if_neg h6]

/-- Witness for `read_payload_pusi_dispatch`: the raw fallback at a PID
with no PSI/PES role and a short payload. -/
theorem read_payload_pusi_dispatch_witness :
    (¬((0x42 : Nat) = 0 ∨ ParserState.initial.known_pmt_pids 0x42 = true) ∧
      ((SliceReader.remaining_len ⟨[7, 7], 3⟩ < 6) ∨
        (SliceReader.slice ⟨[7, 7], 3⟩).take 3 ≠ [0, 0, 1])) ∧
    ParserState.initial.read_payload true 0x42 ⟨[7, 7], 3⟩ =
      some (.ok (.raw ⟨[7, 7], 3⟩), ParserState.initial.erasePending 0x42) :=
  ⟨⟨by simp [ParserState.initial], Or.inl (by decide)⟩,
    (read_payload_pusi_dispatch ParserState.initial 0x42 ⟨[7, 7], 3⟩).2.2
      (by simp [ParserState.initial]) (Or.inl (by decide))⟩

/-- `PsiBuilder::finish` on a CRC mismatch: error out with
`PsiCrcMismatch` at location 0 and leave the parser state untouched. -/
theorem PsiBuilder.finish_crc_mismatch {b : PsiBuilder} {pid : Nat} {st : ParserState}
    (hlen : 4 ≤ b.data.length)
    (hcrc : beValue (b.data.drop (b.data.length - 4)) ≠
      crcUpdate b.hasher (b.data.take (b.data.length - 4))) :
    b.finish pid st = some (.error ⟨0, .psiCrcMismatch⟩, st) := by
  unfold PsiBuilder.finish
  rw [if_neg (by omega)]
  dsimp only
  rw [if_pos hcrc]

/-- A unit-completing `append` on a PSI builder: when the budget fits in
the reader, the builder ends with budget 0 holding the old bytes plus the
first `remaining` reader bytes. -/
theorem append_psi_complete {b : PsiBuilder} {rem : Nat} {r : SliceReader}
    (h : rem ≤ r.slice.length) :
    ∃ r', PayloadUnitBuilder.append ⟨.psi b, rem⟩ r =
      some (true, ⟨.psi { b with data := b.data ++ r.slice.take rem }, 0⟩, r') := by
  unfold PayloadUnitBuilder.append SliceReader.remaining_len
  by_cases hc : r.slice.length ≤ rem
  · have heq : rem = r.slice.length := by omega
    subst heq
    refine ⟨⟨[], r.location + r.slice.length⟩, ?_⟩
    simp [PayloadUnit.extend_from_slice, List.take_length, Nat.sub_self]
  · refine ⟨⟨r.slice.drop rem, r.location + rem⟩, ?_⟩
    rw [if_neg hc]
    rfl

/-- CLAIM C4 - When a packet completes a pending PSI unit whose trailing
4 body bytes (read as a big-endian u32) differ from the finalized
CRC-32/MPEG-2 digest of the collected bytes, the parse returns
`Err(PsiCrcMismatch)`, `known_pmt_pids` is unchanged by the call, and the
pending map holds no entry for that PID afterwards: the unit is
discarded and the parser remains usable. -/
theorem psi_crc_mismatch_discards_unit (st : ParserState) (pid : Nat)
    (r : SliceReader) (b : PsiBuilder) (rem : Nat)
    (hpend : st.pending_payload_units pid = some ⟨.psi b, rem⟩)
    (hrem : rem ≤ r.remaining_len)
    (hlen : 4 ≤ (b.data ++ r.slice.take rem).length)
    (hcrc : beValue ((b.data ++ r.slice.take rem).drop
        ((b.data ++ r.slice.take rem).length - 4)) ≠
      crcUpdate b.hasher ((b.data ++ r.slice.take rem).take
        ((b.data ++ r.slice.take rem).length - 4))) :
    st.continue_payload_unit pid r =
      some (.error ⟨0, .psiCrcMismatch⟩, st.erasePending pid) ∧
    (st.erasePending pid).known_pmt_pids = st.known_pmt_pids ∧
    (st.erasePending pid).pending_payload_units pid = none := by
  refine ⟨?_, rfl, by simp [ParserState.erasePending]⟩
  unfold ParserState.continue_payload_unit
  rw [hpend]
  obtain ⟨r', happ⟩ := @append_psi_complete b rem r hrem
  dsimp only
  rw [happ]
  dsimp only
  rw [if_pos rfl]
  unfold PayloadUnitBuilder.finish
  rw [if_neg (by simp)]
  unfold PayloadUnit.finish
  exact PsiBuilder.finish_crc_mismatch hlen hcrc

/-- Witness for `psi_crc_mismatch_discards_unit`: a pending 4-byte PSI
unit completed by `00 00 00 00`, whose claimed CRC 0 differs from the
digest value 0xFFFFFFFF of the empty body. -/
theorem psi_crc_mismatch_discards_unit_witness :
    ((⟨fun q => if q = 100 then
          some ⟨.psi ⟨PsiHeader.fromBytes 0 0xB0 13, none, [], crcInit⟩, 4⟩
        else none, fun _ => false, BdavParserStorage.empty⟩ :
        ParserState).pending_payload_units 100 =
        some ⟨.psi ⟨PsiHeader.fromBytes 0 0xB0 13, none, [], crcInit⟩, 4⟩ ∧
      4 ≤ SliceReader.remaining_len ⟨[0, 0, 0, 0], 0⟩ ∧
      4 ≤ (([] : List Nat) ++ (SliceReader.slice ⟨[0, 0, 0, 0], 0⟩).take 4).length ∧
      beValue ((([] : List Nat) ++ (SliceReader.slice ⟨[0, 0, 0, 0], 0⟩).take 4).drop
          ((([] : List Nat) ++ (SliceReader.slice ⟨[0, 0, 0, 0], 0⟩).take 4).length - 4)) ≠
        crcUpdate crcInit ((([] : List Nat) ++ (SliceReader.slice ⟨[0, 0, 0, 0], 0⟩).take 4).take
          ((([] : List Nat) ++ (SliceReader.slice ⟨[0, 0, 0, 0], 0⟩).take 4).length - 4))) ∧
    (ParserState.continue_payload_unit
        ⟨fun q => if q = 100 then
          some ⟨.psi ⟨PsiHeader.fromBytes 0 0xB0 13, none, [], crcInit⟩, 4⟩
        else none, fun _ => false, BdavParserStorage.empty⟩ 100 ⟨[0, 0, 0, 0], 0⟩ =
      some (.error ⟨0, .psiCrcMismatch⟩,
        ParserState.erasePending ⟨fun q => if q = 100 then
          some ⟨.psi ⟨PsiHeader.fromBytes 0 0xB0 13, none, [], crcInit⟩, 4⟩
        else none, fun _ => false, BdavParserStorage.empty⟩ 100) ∧
      (ParserState.erasePending ⟨fun q => if q = 100 then
          some ⟨.psi ⟨PsiHeader.fromBytes 0 0xB0 13, none, [], crcInit⟩, 4⟩
        else none, fun _ => false, BdavParserStorage.empty⟩ 100).known_pmt_pids =
        (⟨fun q => if q = 100 then
          some ⟨.psi ⟨PsiHeader.fromBytes 0 0xB0 13, none, [], crcInit⟩, 4⟩
        else none, fun _ => false, BdavParserStorage.empty⟩ :
          ParserState).known_pmt_pids ∧
      (ParserState.erasePending ⟨fun q => if q = 100 then
          some ⟨.psi ⟨PsiHeader.fromBytes 0 0xB0 13, none, [], crcInit⟩, 4⟩
        else none, fun _ => false, BdavParserStorage.empty⟩ 100).pending_payload_units
        100 = none) :=
  ⟨⟨rfl, by decide, by decide, by decide⟩,
    psi_crc_mismatch_discards_unit _ 100 ⟨[0, 0, 0, 0], 0⟩
      ⟨PsiHeader.fromBytes 0 0xB0 13, none, [], crcInit⟩ 4 rfl (by decide) (by decide)
      (by decide)⟩

/-- CLAIM C5 - A PUSI packet starting a PSI section whose header has
`section_length == 0` immediately finishes an empty `PsiBuilder`
(src/psi.rs line 278), and `PsiBuilder::finish` computes
`self.data.len() - 4` on the empty buffer: the subtraction underflows and
the call panics instead of returning the claimed
`Ok(Psi { raw body = [] })`.  The payload below is pointer byte 0 and the
header `00 30 00` (table_id 0, section_length 0) on PID 0. -/
theorem start_psi_zero_section_length_panics :
    ParserState.start_psi ParserState.initial 0 ⟨[0x00, 0x00, 0x30, 0x00], 0⟩ =
      none := by
  rfl

/-- Counterexample for CLAIM C6 - a PUSI PSI packet with
`section_length = 1` and 8 payload bytes after the pointer field and
header does NOT fail with `BadPsiHeader`: the u16 computation
`section_length - 5` wraps to 65532 (debug builds panic on the
underflow), which passes the `table_length >= 4` test, and the parser
returns `PsiPending`, leaving a pending unit for the PID. -/
theorem start_psi_small_section_length_no_bad_header :
    ((ParserState.start_psi ParserState.initial 0
        ⟨[0, 0, 0x30, 1, 0, 1, 0xC1, 0, 0, 9, 9, 9], 0⟩).map Prod.fst) =
      some (.ok .psiPending) ∧
    ((ParserState.start_psi ParserState.initial 0
        ⟨[0, 0, 0x30, 1, 0, 1, 0xC1, 0, 0, 9, 9, 9], 0⟩).map
          (fun p => (p.2.pending_payload_units 0).isSome)) = some true := by
  constructor <;> rfl

/-- CLAIM C6 (amended) - A PUSI packet starting a PSI section with
`section_length > 0` (and at least 8 payload bytes after the pointer
field and header) reads the 5-byte table syntax and computes
`table_length = section_length - 5` in wrapping 16-bit arithmetic; for
every `section_length` in 5..=8 the table length is below 4 and the parse
fails with `BadPsiHeader` at the post-syntax offset, leaving the parser
state unchanged.  (Amended: for `section_length` in 1..=4 the u16
subtraction underflows - the claimed `BadPsiHeader` does not occur; the
wrapped length starts a pending unit in release builds and debug builds
panic.) -/
theorem start_psi_table_length_check (st : ParserState) (pid : Nat)
    (p : Nat) (filler : List Nat) (tid b1 b2 : Nat) (rest : List Nat) (loc : Nat)
    (hfill : filler.length = p)
    (hrest : 8 ≤ rest.length)
    (hsl_lo : 5 ≤ (PsiHeader.fromBytes tid b1 b2).section_length)
    (hsl_hi : (PsiHeader.fromBytes tid b1 b2).section_length ≤ 8) :
    ParserState.start_psi st pid ⟨p :: (filler ++ tid :: b1 :: b2 :: rest), loc⟩ =
      some (.error ⟨loc + 9 + p, .badPsiHeader⟩, st) := by
  have e1 : SliceReader.read ⟨p :: (filler ++ tid :: b1 :: b2 :: rest), loc⟩ 1 =
      .ok ([p], ⟨filler ++ tid :: b1 :: b2 :: rest, loc + 1⟩) := by
    unfold SliceReader.read
    rw [if_neg (by simp)]
    simp
  have e2 : SliceReader.skip ⟨filler ++ tid :: b1 :: b2 :: rest, loc + 1⟩ p =
      .ok ⟨tid :: b1 :: b2 :: rest, loc + 1 + p⟩ := by
    unfold SliceReader.skip
    rw [if_neg (by simp; omega)]
    rw [← hfill, List.drop_left]
  have e3 : SliceReader.read_array_ref ⟨tid :: b1 :: b2 :: rest, loc + 1 + p⟩ 3 =
      .ok ([tid, b1, b2], ⟨rest, loc + 1 + p + 3⟩) := by
    unfold SliceReader.read_array_ref SliceReader.read
    rw [if_neg (by simp)]
    simp
  have e4 : SliceReader.read_array_ref ⟨rest, loc + 1 + p + 3⟩ 5 =
      .ok (rest.take 5, ⟨rest.drop 5, loc + 1 + p + 3 + 5⟩) := by
    unfold SliceReader.read_array_ref SliceReader.read
    rw [if_neg (by simp; omega)]
  unfold ParserState.start_psi
  rw [if_neg (by simp [SliceReader.remaining_len])]
  rw [e1]
  dsimp only [List.headI]
  rw [if_neg (by simp [SliceReader.remaining_len]; omega)]
  rw [e2]
  dsimp only
  rw [if_neg (by simp [SliceReader.remaining_len])]
  rw [e3]
  dsimp only [List.headI, List.tail_cons]
  rw [if_pos (by omega)]
  rw [if_neg (by simp [SliceReader.remaining_len]; omega)]
  rw [e4]
  dsimp only
  have htl : ((PsiHeader.fromBytes tid b1 b2).section_length + 65536 - 5) % 65536 =
      (PsiHeader.fromBytes tid b1 b2).section_length - 5 := by
    omega
  rw [htl]
  rw [if_pos (by omega)]
  unfold SliceReader.make_error
  have : loc + 1 + p + 3 + 5 = loc + 9 + p := by omega
  rw [this]

/-- Witness for `start_psi_table_length_check`: pointer 0,
`section_length = 5`, eight trailing bytes. -/
theorem start_psi_table_length_check_witness :
    (([] : List Nat).length = 0 ∧
      8 ≤ ([0, 0, 0, 0, 0, 0, 0, 0] : List Nat).length ∧
      5 ≤ (PsiHeader.fromBytes 0 0x30 5).section_length ∧
      (PsiHeader.fromBytes 0 0x30 5).section_length ≤ 8) ∧
    ParserState.start_psi ParserState.initial 0
        ⟨0 :: ([] ++ 0 :: 0x30 :: 5 :: [0, 0, 0, 0, 0, 0, 0, 0]), 0⟩ =
      some (.error ⟨0 + 9 + 0, .badPsiHeader⟩, ParserState.initial) :=
  ⟨⟨rfl, by decide, by decide, by decide⟩,
    start_psi_table_length_check ParserState.initial 0 0 [] 0 0x30 5
      [0, 0, 0, 0, 0, 0, 0, 0] 0 rfl (by decide) (by decide) (by decide)⟩

/-- Reading one byte from a cons-headed reader. -/
theorem read_u8_cons (x : Nat) (L : List Nat) (loc : Nat) :
    SliceReader.read_u8 ⟨x :: L, loc⟩ = .ok (x, ⟨L, loc + 1⟩) := by
  unfold SliceReader.read_u8 SliceReader.read_array_ref SliceReader.read
  rw [if_neg (by simp)]
  simp

/-- Reading a big-endian u16 from a reader with two leading bytes. -/
theorem read_be_u16_cons (a b : Nat) (L : List Nat) (loc : Nat) :
    SliceReader.read_be_u16 ⟨a :: b :: L, loc⟩ =
      .ok (beValue [a, b], ⟨L, loc + 2⟩) := by
  unfold SliceReader.read_be_u16 SliceReader.read_array_ref SliceReader.read
  rw [if_neg (by simp)]
  simp [List.take, List.drop]

/-- Counterexample for CLAIM C7 - a finished PG PES unit holding TWO
segments - a complete end-of-display segment `80 00 00` followed by a
segment of unknown type `FF 00 00` - parses successfully to the FIRST
segment alone; were every segment consumed and decoded, the unknown type
of the second would have to raise `UnknownPgSegmentType`. -/
theorem pg_finish_ignores_second_segment :
    PgSegmentData.finish (.raw [0x80, 0, 0, 0xFF, 0, 0]) BdavParserStorage.empty =
      some (.ok (.pgsEndOfDisplay ⟨⟩), BdavParserStorage.empty) := by
  rfl

/-- CLAIM C7 (amended) - When a PES unit on a PG PID finishes, the
accumulated bytes are parsed as a SINGLE segment: a 1-byte type, a 2-byte
big-endian length, and that many bytes decoded in a bounded sub-view
according to the type (unknown type raising `UnknownPgSegmentType`);
bytes after this first segment are ignored - the outcome, including the
shared-storage effect, is the same for every trailing byte sequence.
(Amended: the source parses only the first segment of the unit, not a
sequence of segments.) -/
theorem pg_finish_parses_single_segment (t l1 l0 : Nat) (body rest : List Nat)
    (storage : BdavParserStorage)
    (hbody : body.length = beValue [l1, l0]) :
    PgSegmentData.finish (.raw (t :: l1 :: l0 :: (body ++ rest))) storage =
      PgSegmentData.finish (.raw (t :: l1 :: l0 :: body)) storage := by
  have rsub1 : SliceReader.new_sub_reader ⟨body ++ rest, 3⟩ (beValue [l1, l0]) =
      .ok (⟨body, 3⟩, ⟨rest, 3 + body.length⟩) := by
    unfold SliceReader.new_sub_reader SliceReader.read
    rw [if_neg (by simp; omega)]
    rw [← hbody, List.take_left, List.drop_left]
  have rsub2 : SliceReader.new_sub_reader ⟨body, 3⟩ (beValue [l1, l0]) =
      .ok (⟨body, 3⟩, ⟨[], 3 + body.length⟩) := by
    unfold SliceReader.new_sub_reader SliceReader.read
    rw [if_neg (by simp; omega)]
    rw [← hbody]
    simp
  unfold PgSegmentData.finish
  unfold parse_pg_segment_data
  dsimp only
  rw [read_u8_cons, read_u8_cons]
  dsimp only
  rw [read_be_u16_cons, read_be_u16_cons]
  dsimp only
  rw [rsub1, rsub2]

/-- Witness for `pg_finish_parses_single_segment`: a zero-length
end-of-display segment followed by one stray byte. -/
theorem pg_finish_parses_single_segment_witness :
    (([] : List Nat).length = beValue [0, 0]) ∧
    PgSegmentData.finish (.raw (0x80 :: 0 :: 0 :: (([] : List Nat) ++ [9])))
        BdavParserStorage.empty =
      PgSegmentData.finish (.raw (0x80 :: 0 :: 0 :: ([] : List Nat)))
        BdavParserStorage.empty :=
  ⟨by decide,
    pg_finish_parses_single_segment 0x80 0 0 [] [9] BdavParserStorage.empty
      (by decide)⟩

/-- Reading a big-endian u24 from a reader with three leading bytes. -/
theorem read_be_u24_cons (a b c : Nat) (L : List Nat) (loc : Nat) :
    SliceReader.read_be_u24 ⟨a :: b :: c :: L, loc⟩ =
      .ok (beValue [a, b, c], ⟨L, loc + 3⟩) := by
  unfold SliceReader.read_be_u24 SliceReader.read_array_ref SliceReader.read
  rw [if_neg (by simp)]
  simp [List.take, List.drop]

/-- Reading exactly the whole remaining slice. -/
theorem read_all (L : List Nat) (loc : Nat) :
    SliceReader.read ⟨L, loc⟩ L.length = .ok (L, ⟨[], loc + L.length⟩) := by
  unfold SliceReader.read
  rw [if_neg (by simp)]
  simp

/-- `read_to_end` returns the whole remaining slice. -/
theorem read_to_end_all (L : List Nat) (loc : Nat) :
    SliceReader.read_to_end ⟨L, loc⟩ = .ok (L, ⟨[], loc + L.length⟩) := by
  unfold SliceReader.read_to_end
  exact read_all L loc

/-- Sequence-descriptor read on a cons-headed reader. -/
theorem seq_parse_cons (s : Nat) (L : List Nat) (loc : Nat) :
    PgSequenceDescriptor.parse ⟨s :: L, loc⟩ =
      .ok (⟨bitFlag s 0x80, bitFlag s 0x40⟩, ⟨L, loc + 1⟩) := by
  unfold PgSequenceDescriptor.parse
  rw [read_u8_cons]

/-- `PgsObject::parse` of a complete `(1,1)` segment: the length prefix is
only length-checked for a warning; the data is parsed from ALL remaining
bytes and the storage is untouched. -/
theorem pgsObject_parse_oneshot (idHi idLo ver LHi LMid LLo b0 b1 b2 b3 : Nat)
    (dataRest : List Nat) (s : BdavParserStorage) :
    PgsObject.parse ⟨objFragBytes idHi idLo ver 0xC0
        (LHi :: LMid :: LLo :: b0 :: b1 :: b2 :: b3 :: dataRest), 0⟩ s =
      (.ok (⟨beValue [idHi, idLo], ver, ⟨true, true⟩,
        some ⟨beValue [b0, b1], beValue [b2, b3], dataRest⟩⟩,
        ⟨[], 11 + dataRest.length⟩), s) := by
  unfold objFragBytes PgsObject.parse
  rw [read_be_u16_cons]
  dsimp only
  rw [read_u8_cons]
  dsimp only
  rw [seq_parse_cons]
  dsimp only
  rw [show bitFlag 0xC0 0x80 = true from rfl, show bitFlag 0xC0 0x40 = true from rfl]
  rw [read_be_u24_cons]
  dsimp only
  unfold PgsObjectData.parse
  rw [read_be_u16_cons]
  dsimp only
  rw [read_be_u16_cons]
  dsimp only
  rw [read_to_end_all]
  norm_num

/-- `PgsObject::parse` of a first fragment `(1,0)`: the payload (within
the declared capacity) is stored under `(id, version)`. -/
theorem pgsObject_parse_first (idHi idLo ver LHi LMid LLo : Nat) (c0 : List Nat)
    (s : BdavParserStorage) (hfit : c0.length ≤ beValue [LHi, LMid, LLo]) :
    PgsObject.parse ⟨objFragBytes idHi idLo ver 0x80
        (LHi :: LMid :: LLo :: c0), 0⟩ s =
      (.ok (⟨beValue [idHi, idLo], ver, ⟨true, false⟩, none⟩, ⟨[], 7 + c0.length⟩),
       { s with pending_obj_segments := fun k =>
           if k = (beValue [idHi, idLo], ver) then
             some ⟨c0, beValue [LHi, LMid, LLo]⟩
           else s.pending_obj_segments k }) := by
  unfold objFragBytes PgsObject.parse
  rw [read_be_u16_cons]
  dsimp only
  rw [read_u8_cons]
  dsimp only
  rw [seq_parse_cons]
  dsimp only
  rw [show bitFlag 0x80 0x80 = true from rfl, show bitFlag 0x80 0x40 = false from rfl]
  rw [read_be_u24_cons]
  dsimp only
  dsimp only [SliceReader.remaining_len]
  rw [Nat.min_eq_left hfit]
  rw [read_all]
  norm_num

/-- `PgsObject::parse` of a middle fragment `(0,0)`: the chunk (within
the stored capacity) is appended to the pending buffer. -/
theorem pgsObject_parse_middle (idHi idLo ver : Nat) (c acc : List Nat) (L : Nat)
    (s : BdavParserStorage)
    (hkey : s.pending_obj_segments (beValue [idHi, idLo], ver) = some ⟨acc, L⟩)
    (hfit : acc.length + c.length ≤ L) :
    PgsObject.parse ⟨objFragBytes idHi idLo ver 0x00 c, 0⟩ s =
      (.ok (⟨beValue [idHi, idLo], ver, ⟨false, false⟩, none⟩, ⟨[], 4 + c.length⟩),
       { s with pending_obj_segments := fun k =>
           if k = (beValue [idHi, idLo], ver) then some ⟨acc ++ c, L⟩
           else s.pending_obj_segments k }) := by
  unfold objFragBytes PgsObject.parse
  rw [read_be_u16_cons]
  dsimp only
  rw [read_u8_cons]
  dsimp only
  rw [seq_parse_cons]
  dsimp only
  rw [show bitFlag 0x00 0x80 = false from rfl, show bitFlag 0x00 0x40 = false from rfl]
  rw [hkey]
  dsimp only
  dsimp only [SliceReader.remaining_len]
  rw [Nat.min_eq_left (by omega)]
  rw [read_all]
  norm_num

/-- `PgsObject::parse` of a last fragment `(0,1)`: the entry is removed,
the chunk appended, and the full buffer parsed as the object data. -/
theorem pgsObject_parse_last (idHi idLo ver b0 b1 b2 b3 : Nat)
    (dataRest cl acc : List Nat) (L : Nat) (s : BdavParserStorage)
    (hkey : s.pending_obj_segments (beValue [idHi, idLo], ver) = some ⟨acc, L⟩)
    (hfit : acc.length + cl.length ≤ L)
    (hshape : acc ++ cl = b0 :: b1 :: b2 :: b3 :: dataRest) :
    PgsObject.parse ⟨objFragBytes idHi idLo ver 0x40 cl, 0⟩ s =
      (.ok (⟨beValue [idHi, idLo], ver, ⟨false, true⟩,
        some ⟨beValue [b0, b1], beValue [b2, b3], dataRest⟩⟩, ⟨[], 4 + cl.length⟩),
       { s with pending_obj_segments := fun k =>
           if k = (beValue [idHi, idLo], ver) then none
           else s.pending_obj_segments k }) := by
  unfold objFragBytes PgsObject.parse
  rw [read_be_u16_cons]
  dsimp only
  rw [read_u8_cons]
  dsimp only
  rw [seq_parse_cons]
  dsimp only
  rw [show bitFlag 0x40 0x80 = false from rfl, show bitFlag 0x40 0x40 = true from rfl]
  rw [hkey]
  dsimp only
  dsimp only [SliceReader.remaining_len]
  rw [Nat.min_eq_left (by omega)]
  rw [read_all]
  dsimp only
  rw [hshape]
  unfold PgsObjectData.parse
  rw [read_be_u16_cons]
  dsimp only
  rw [read_be_u16_cons]
  dsimp only
  rw [read_to_end_all]
  norm_num

/-- Middle fragments accumulate: delivered over a storage holding
`(acc, L)` under the object's key, they succeed and leave the storage
holding `acc` extended by all chunks, capacity permitting. -/
theorem deliverObjMiddles_spec (idHi idLo ver : Nat) (ms : List (List Nat)) :
    ∀ (acc : List Nat) (L : Nat) (s : BdavParserStorage),
    s.pending_obj_segments (beValue [idHi, idLo], ver) = some ⟨acc, L⟩ →
    acc.length + ms.flatten.length ≤ L →
    ∃ os, deliverObjMiddles idHi idLo ver ms s =
      (.ok os, { s with pending_obj_segments := fun k =>
        if k = (beValue [idHi, idLo], ver) then some ⟨acc ++ ms.flatten, L⟩
        else s.pending_obj_segments k }) := by
  induction ms with
  | nil =>
    intro acc L s hkey hfit
    refine ⟨[], ?_⟩
    unfold deliverObjMiddles
    congr 1
    cases s with
    | mk ig obj =>
      simp only [BdavParserStorage.mk.injEq, true_and]
      funext k
      by_cases hk : k = (beValue [idHi, idLo], ver)
      · subst hk
        simpa using hkey
      · simp [hk]
  | cons c cs ih =>
    intro acc L s hkey hfit
    have hfitc : acc.length + c.length ≤ L := by
      simp at hfit
      omega
    unfold deliverObjMiddles
    rw [pgsObject_parse_middle idHi idLo ver c acc L s hkey hfitc]
    dsimp only
    obtain ⟨os, hos⟩ := ih (acc ++ c) L
      { s with pending_obj_segments := fun k =>
          if k = (beValue [idHi, idLo], ver) then some ⟨acc ++ c, L⟩
          else s.pending_obj_segments k }
      (by simp) (by simp at hfit ⊢; omega)
    rw [hos]
    dsimp only
    refine ⟨⟨beValue [idHi, idLo], ver, ⟨false, false⟩, none⟩ :: os, ?_⟩
    congr 1
    cases s with
    | mk ig obj =>
      simp only [BdavParserStorage.mk.injEq, true_and]
      funext k
      by_cases hk : k = (beValue [idHi, idLo], ver)
      · subst hk
        simp [List.append_assoc]
      · simp [hk]

/-- Counterexample for CLAIM C8 - an object payload of 5 total bytes
`00 00 00 00 09` with u24 length prefix 4 (shorter than the payload):
delivered as a single `(1,1)` segment the parse keeps all 5 bytes (data
`[9]` after width/height, the over-long case only warns), but delivered
as `(1,0)` then `(0,1)` the reassembly truncates to the 4-byte capacity
and yields data `[]` - different `PgsObjectData` bytes. -/
theorem pgs_object_overlong_fragments_differ :
    objParseData (PgsObject.parse ⟨[0, 0, 0, 0xC0, 0, 0, 4, 0, 0, 0, 0, 9], 0⟩
        BdavParserStorage.empty) = some ⟨0, 0, [9]⟩ ∧
    objParseData (PgsObject.parse ⟨[0, 0, 0, 0x40, 9], 0⟩
        (PgsObject.parse ⟨[0, 0, 0, 0x80, 0, 0, 4, 0, 0, 0, 0], 0⟩
          BdavParserStorage.empty).2) = some ⟨0, 0, []⟩ := by
  constructor <;> rfl

/-- CLAIM C8 (amended) - An object payload delivered as the fragment
sequence `(1,0), (0,0)*, (0,1)` under one `(id, version)` key, with the
same u24 length prefix and the same total payload bytes as a single
`(1,1)` segment, yields the same final `PgsObjectData` (width, height and
data bytes) as the one-shot parse PROVIDED the total payload length does
not exceed the length prefix, and the shared pending-object storage holds
no entry for that key afterwards.  (Amended: when the payload is longer
than the prefix the fragmented path truncates to the prefix capacity
while the one-shot path keeps every byte, and the results differ; the
payload must also hold the 4 width/height bytes for any `PgsObjectData`
to be produced.) -/
theorem pgs_object_fragment_reassembly_agrees
    (idHi idLo ver LHi LMid LLo b0 b1 b2 b3 : Nat) (dataRest : List Nat)
    (c0 : List Nat) (ms : List (List Nat)) (cl : List Nat)
    (s0 : BdavParserStorage)
    (hsplit : c0 ++ ms.flatten ++ cl = b0 :: b1 :: b2 :: b3 :: dataRest)
    (hfit : (b0 :: b1 :: b2 :: b3 :: dataRest).length ≤ beValue [LHi, LMid, LLo]) :
    PgsObject.parse ⟨objFragBytes idHi idLo ver 0xC0
        (LHi :: LMid :: LLo :: b0 :: b1 :: b2 :: b3 :: dataRest), 0⟩ s0 =
      (.ok (⟨beValue [idHi, idLo], ver, ⟨true, true⟩,
        some ⟨beValue [b0, b1], beValue [b2, b3], dataRest⟩⟩,
        ⟨[], 11 + dataRest.length⟩), s0) ∧
    (deliverObjFragments idHi idLo ver LHi LMid LLo c0 ms cl s0).1 =
      .ok ⟨beValue [idHi, idLo], ver, ⟨false, true⟩,
        some ⟨beValue [b0, b1], beValue [b2, b3], dataRest⟩⟩ ∧
    ((deliverObjFragments idHi idLo ver LHi LMid LLo c0 ms cl s0).2).pending_obj_segments
      (beValue [idHi, idLo], ver) = none := by
  have lens : c0.length + ms.flatten.length + cl.length = 4 + dataRest.length := by
    have h := congrArg List.length hsplit
    simp only [List.length_append, List.length_cons] at h
    omega
  have hfit' : 4 + dataRest.length ≤ beValue [LHi, LMid, LLo] := by
    simp only [List.length_cons] at hfit
    omega
  have hrun : ∃ sF, deliverObjFragments idHi idLo ver LHi LMid LLo c0 ms cl s0 =
      (.ok ⟨beValue [idHi, idLo], ver, ⟨false, true⟩,
        some ⟨beValue [b0, b1], beValue [b2, b3], dataRest⟩⟩, sF) ∧
      sF.pending_obj_segments (beValue [idHi, idLo], ver) = none := by
    unfold deliverObjFragments
    rw [pgsObject_parse_first idHi idLo ver LHi LMid LLo c0 s0 (by omega)]
    dsimp only
    obtain ⟨os, hos⟩ := deliverObjMiddles_spec idHi idLo ver ms c0
      (beValue [LHi, LMid, LLo])
      { s0 with pending_obj_segments := fun k =>
          if k = (beValue [idHi, idLo], ver) then
            some ⟨c0, beValue [LHi, LMid, LLo]⟩
          else s0.pending_obj_segments k }
      (by simp) (by omega)
    rw [hos]
    dsimp only
    rw [pgsObject_parse_last idHi idLo ver b0 b1 b2 b3 dataRest cl
      (c0 ++ ms.flatten) (beValue [LHi, LMid, LLo]) _ (by simp)
      (by simp only [List.length_append]; omega) hsplit]
    refine ⟨_, rfl, ?_⟩
    simp
  obtain ⟨sF, h1, h2⟩ := hrun
  exact ⟨pgsObject_parse_oneshot idHi idLo ver LHi LMid LLo b0 b1 b2 b3 dataRest s0,
    by rw [h1], by rw [h1]; exact h2⟩

/-- Witness for `pgs_object_fragment_reassembly_agrees`: payload
`01 02 03 04 05` of length 5 = its prefix, split as
`(1,0)[01 02] (0,0)[03] (0,1)[04 05]`. -/
theorem pgs_object_fragment_reassembly_agrees_witness :
    (([1, 2] ++ ([[3]] : List (List Nat)).flatten ++ [4, 5] =
        [1, 2, 3, 4, 5]) ∧
      ([1, 2, 3, 4, 5] : List Nat).length ≤ beValue [0, 0, 5]) ∧
    (PgsObject.parse ⟨objFragBytes 0 7 1 0xC0 (0 :: 0 :: 5 :: [1, 2, 3, 4, 5]), 0⟩
        BdavParserStorage.empty =
      (.ok (⟨beValue [0, 7], 1, ⟨true, true⟩,
        some ⟨beValue [1, 2], beValue [3, 4], [5]⟩⟩, ⟨[], 11 + 1⟩),
        BdavParserStorage.empty) ∧
    (deliverObjFragments 0 7 1 0 0 5 [1, 2] [[3]] [4, 5]
        BdavParserStorage.empty).1 =
      .ok ⟨beValue [0, 7], 1, ⟨false, true⟩,
        some ⟨beValue [1, 2], beValue [3, 4], [5]⟩⟩ ∧
    ((deliverObjFragments 0 7 1 0 0 5 [1, 2] [[3]] [4, 5]
        BdavParserStorage.empty).2).pending_obj_segments (beValue [0, 7], 1) =
      none) :=
  ⟨⟨by decide, by decide⟩,
    pgs_object_fragment_reassembly_agrees 0 7 1 0 0 5 1 2 3 4 [5] [1, 2] [[3]]
      [4, 5] BdavParserStorage.empty (by decide) (by decide)⟩


/-- CLAIM C9 - MObj operand resolution: for every u32 value and boolean
`is_imm`, if `is_imm` the operand is `Imm(value)`; otherwise, if bit 31 of
the value is clear it is `Gpr(value mod 2^12)` (the low 12 bits), and if
bit 31 is set it is `Psr(value mod 2^7)` (the low 7 bits). -/
theorem make_operand_resolution (v : Nat) (is_imm : Bool) :
    (is_imm = true → MObjCmd.make_operand v is_imm = .imm v) ∧
    (is_imm = false → v.testBit 31 = false →
      MObjCmd.make_operand v is_imm = .gpr (v % 4096)) ∧
    (is_imm = false → v.testBit 31 = true →
      MObjCmd.make_operand v is_imm = .psr (v % 128)) := by
  refine ⟨?_, ?_, ?_⟩
  · intro h; subst h; rfl
  · intro h hb
    subst h
    have hz : v &&& 0x80000000 = 0 := by
      have := Nat.and_two_pow v 31
      norm_num at this
      simp [hb] at this
      omega
    have hm : v &&& 0xfff = v % 4096 := by
      have := Nat.and_pow_two_sub_one_eq_mod v 12
      norm_num at this
      exact this
    simp [MObjCmd.make_operand, hz, hm]
  · intro h hb
    subst h
    have hz : v &&& 0x80000000 ≠ 0 := by
      have := Nat.and_two_pow v 31
      norm_num at this
      simp [hb] at this
      omega
    have hm : v &&& 0x7f = v % 128 := by
      have := Nat.and_pow_two_sub_one_eq_mod v 7
      norm_num at this
      exact this
    simp [MObjCmd.make_operand, hz, hm]

/-- Witness for `make_operand_resolution` at concrete operand values. -/
theorem make_operand_resolution_witness :
    (true = true ∧ MObjCmd.make_operand 77 true = .imm 77) ∧
    (false = false ∧ Nat.testBit 4105 31 = false ∧
      MObjCmd.make_operand 4105 false = .gpr (4105 % 4096)) ∧
    (false = false ∧ Nat.testBit 2147483781 31 = true ∧
      MObjCmd.make_operand 2147483781 false = .psr (2147483781 % 128)) :=
  ⟨⟨rfl, (make_operand_resolution 77 true).1 rfl⟩,
   ⟨rfl, by decide, (make_operand_resolution 4105 false).2.1 rfl (by decide)⟩,
   ⟨rfl, by decide, (make_operand_resolution 2147483781 false).2.2 rfl (by decide)⟩⟩

/-- CLAIM C10 - Every `SliceReader` operation either succeeds, advancing the
location by exactly the number of bytes consumed (zero for `peek`) so that
location plus remaining length is preserved, or fails with
`PacketOverrun(n)` tagged with the current (unchanged) offset; a failing
operation produces no advanced reader at all, so the cursor state is
unchanged. -/
theorem slice_reader_ops_spec (r : SliceReader) (n : Nat) :
    ((n ≤ r.remaining_len →
        r.skip n = .ok ⟨r.slice.drop n, r.location + n⟩ ∧
        r.read n = .ok (r.slice.take n, ⟨r.slice.drop n, r.location + n⟩) ∧
        r.new_sub_reader n =
          .ok (⟨r.slice.take n, r.location⟩, ⟨r.slice.drop n, r.location + n⟩) ∧
        r.peek n = .ok (r.slice.take n) ∧
        r.peek_array_ref n = .ok (r.slice.take n) ∧
        (∀ bytes r', r.read n = .ok (bytes, r') →
          r'.location = r.location + n ∧
          r'.location + r'.remaining_len = r.location + r.remaining_len)) ∧
      (r.remaining_len < n →
        r.skip n = .error ⟨r.location, .packetOverrun n⟩ ∧
        r.read n = .error ⟨r.location, .packetOverrun n⟩ ∧
        r.new_sub_reader n = .error ⟨r.location, .packetOverrun n⟩ ∧
        r.peek n = .error ⟨r.location, .packetOverrun n⟩)) ∧
    (r.read_to_end =
        .ok (r.slice, ⟨[], r.location + r.remaining_len⟩)) ∧
    ((5 ≤ r.remaining_len →
        r.read_u8 = .ok ((r.slice.take 1).headI, ⟨r.slice.drop 1, r.location + 1⟩) ∧
        r.read_be_u16 = .ok (beValue (r.slice.take 2), ⟨r.slice.drop 2, r.location + 2⟩) ∧
        r.read_be_u24 = .ok (beValue (r.slice.take 3), ⟨r.slice.drop 3, r.location + 3⟩) ∧
        r.read_be_u32 = .ok (beValue (r.slice.take 4), ⟨r.slice.drop 4, r.location + 4⟩) ∧
        r.read_be_u33 =
          .ok (beValue (((r.slice.take 5).headI &&& 0x1) :: (r.slice.take 5).tail),
               ⟨r.slice.drop 5, r.location + 5⟩)) ∧
      (r.remaining_len = 0 →
        0 < n → r.read_u8 = .error ⟨r.location, .packetOverrun 1⟩)) := by
  unfold SliceReader.remaining_len at *
  refine ⟨⟨?_, ?_⟩, ?_, ?_, ?_⟩
  · intro h
    have hn : ¬ n > r.slice.length := by omega
    refine ⟨?_, ?_, ?_, ?_, ?_, ?_⟩
    · simp [SliceReader.skip, hn]
    · simp [SliceReader.read, hn]
    · simp [SliceReader.new_sub_reader, SliceReader.read, hn]
    · simp [SliceReader.peek, hn]
    · simp [SliceReader.peek_array_ref, SliceReader.peek, hn]
    · intro bytes r' hr
      simp [SliceReader.read, hn] at hr
      obtain ⟨h1, h2⟩ := hr
      subst h2
      simp [SliceReader.remaining_len, List.length_drop]
      omega
  · intro h
    have hn : n > r.slice.length := by omega
    refine ⟨?_, ?_, ?_, ?_⟩
    · simp [SliceReader.skip, hn, SliceReader.make_error]
    · simp [SliceReader.read, hn, SliceReader.make_error]
    · simp [SliceReader.new_sub_reader, SliceReader.read, hn, SliceReader.make_error]
    · simp [SliceReader.peek, hn, SliceReader.make_error]
  · simp [SliceReader.read_to_end, SliceReader.read, SliceReader.remaining_len]
  · intro h
    have h1 : ¬ 1 > r.slice.length := by omega
    have h2 : ¬ 2 > r.slice.length := by omega
    have h3 : ¬ 3 > r.slice.length := by omega
    have h4 : ¬ 4 > r.slice.length := by omega
    have h5 : ¬ 5 > r.slice.length := by omega
    refine ⟨?_, ?_, ?_, ?_, ?_⟩
    · simp [SliceReader.read_u8, SliceReader.read_array_ref, SliceReader.read, h1]
    · simp [SliceReader.read_be_u16, SliceReader.read_array_ref, SliceReader.read, h2]
    · simp [SliceReader.read_be_u24, SliceReader.read_array_ref, SliceReader.read, h3]
    · simp [SliceReader.read_be_u32, SliceReader.read_array_ref, SliceReader.read, h4]
    · simp [SliceReader.read_be_u33, SliceReader.read_array_ref, SliceReader.read, h5]
  · intro h0 hn
    have h1 : 1 > r.slice.length := by omega
    simp [SliceReader.read_u8, SliceReader.read_array_ref, SliceReader.read, h1,
      SliceReader.make_error]

/-- Witness for `slice_reader_ops_spec` at a concrete reader. -/
theorem slice_reader_ops_spec_witness :
    (2 ≤ SliceReader.remaining_len ⟨[10, 20, 30, 40, 50, 60], 7⟩ ∧
      SliceReader.read ⟨[10, 20, 30, 40, 50, 60], 7⟩ 2 =
        .ok ([10, 20], ⟨[30, 40, 50, 60], 9⟩)) ∧
    (SliceReader.remaining_len ⟨[10, 20, 30, 40, 50, 60], 7⟩ < 9 ∧
      SliceReader.read ⟨[10, 20, 30, 40, 50, 60], 7⟩ 9 =
        .error ⟨7, .packetOverrun 9⟩) ∧
    (5 ≤ SliceReader.remaining_len ⟨[10, 20, 30, 40, 50, 60], 7⟩ ∧
      SliceReader.read_be_u16 ⟨[10, 20, 30, 40, 50, 60], 7⟩ =
        .ok (2580, ⟨[30, 40, 50, 60], 9⟩)) := by
  refine ⟨⟨by decide, ?_⟩, ⟨by decide, ?_⟩, ⟨by decide, ?_⟩⟩
  · have h := ((slice_reader_ops_spec ⟨[10, 20, 30, 40, 50, 60], 7⟩ 2).1.1 (by decide)).2.1
    simpa using h
  · have h := ((slice_reader_ops_spec ⟨[10, 20, 30, 40, 50, 60], 7⟩ 9).1.2 (by decide)).2.1
    simpa using h
  · have h := (((slice_reader_ops_spec ⟨[10, 20, 30, 40, 50, 60], 7⟩ 2).2.2).1 (by decide)).2.1
    simpa using h
